import Mathlib

/-!
# Wii Remote report translation

A shallow embedding of `btdrv-mitm/source/controllers/wiicontroller.cpp`:
the decoder `WiiController::convertReportFormat`, its per-report handlers,
the per-extension mapping functions and the output commands they issue.

Conventions.
* Machine integers are `Nat` / `Int`; a narrowing store is an explicit `%`.
* `float` is IEEE-754 binary32 with round-to-nearest-even, modelled exactly on
  integers (section `F32`).
* The target is little-endian (AArch64), as `util::SwapBytes` in the source
  presupposes for its big-endian wire fields.
* What the C++ standard leaves open, and what is declared in headers that are
  not among the sources, is collected in `Platform` and universally quantified
  in every theorem.
-/

/-! ## binary32 arithmetic -/

namespace F32

/-- Every finite binary32 value is an integer multiple of `2^-149`; a float is
represented by that integer. -/
def unit : Nat := 2 ^ 149

/-- Nearest integer to `n / d`, ties to even. -/
def rne (n d : Nat) : Nat :=
  let q := n / d
  let r := n % d
  if 2 * r < d then q else if d < 2 * r then q + 1 else if q % 2 = 0 then q else q + 1

/-- The largest `s ≤ k` with `2 ^ (s + 23) ≤ t`, or `0` when there is none:
how many low bits a magnitude `t` has beyond the 24-bit significand.  Finite
binary32 magnitudes need at most 253. -/
def shiftFrom : Nat → Nat → Nat
  | 0, _ => 0
  | k + 1, t => if 2 ^ 23 ≤ t / 2 ^ (k + 1) then k + 1 else shiftFrom k t

/-- Round the magnitude `n / d` (in units of `2^-149`) to a 24-bit
significand, nearest-even. -/
def roundMag (n d : Nat) : Nat :=
  let shift := shiftFrom 253 (n / d)
  rne n (d * 2 ^ shift) * 2 ^ shift

/-- Round the rational `num / den` (in units of `2^-149`) to binary32. -/
def round (num : Int) (den : Nat) : Int :=
  if num < 0 then -((roundMag num.natAbs den : Nat) : Int)
  else ((roundMag num.natAbs den : Nat) : Int)

/-- Conversion `float(i)` of an integer. -/
def ofInt (i : Int) : Int := round (i * (unit : Int)) 1

/-- Single-precision division. -/
def div (a b : Int) : Int := round (a * (unit : Int) * Int.sign b) b.natAbs

/-- Single-precision multiplication. -/
def mul (a b : Int) : Int := round (a * b) unit

/-- Single-precision addition. -/
def add (a b : Int) : Int := round (a + b) 1

/-- Fused multiply-add `a * b + c` with one rounding. -/
def fma (a b c : Int) : Int := round (a * b + c * (unit : Int)) unit

/-- Truncation toward zero to an integer. -/
def trunc (a : Int) : Int := Int.tdiv a (unit : Int)

end F32

/-! ## Byte order helpers (`util::SwapBytes`, loads and stores) -/

/-- Byte swap of a 16-bit value. -/
def swapBytes16 (x : Nat) : Nat := (x % 256) * 256 + (x / 256) % 256

/-- Byte swap of a 32-bit value. -/
def swapBytes32 (x : Nat) : Nat :=
  (x % 256) * 2 ^ 24 + (x / 2 ^ 8 % 256) * 2 ^ 16 + (x / 2 ^ 16 % 256) * 2 ^ 8 + x / 2 ^ 24 % 256

/-- Byte swap of a 64-bit value. -/
def swapBytes64 (x : Nat) : Nat :=
  (x % 256) * 2 ^ 56 + (x / 2 ^ 8 % 256) * 2 ^ 48 + (x / 2 ^ 16 % 256) * 2 ^ 40
    + (x / 2 ^ 24 % 256) * 2 ^ 32 + (x / 2 ^ 32 % 256) * 2 ^ 24 + (x / 2 ^ 40 % 256) * 2 ^ 16
    + (x / 2 ^ 48 % 256) * 2 ^ 8 + x / 2 ^ 56 % 256

/-- Little-endian load of a `u64` from a byte array. -/
def loadLE64 (m : Nat → Nat) : Nat :=
  m 0 + m 1 * 2 ^ 8 + m 2 * 2 ^ 16 + m 3 * 2 ^ 24 + m 4 * 2 ^ 32 + m 5 * 2 ^ 40
    + m 6 * 2 ^ 48 + m 7 * 2 ^ 56

/-- Store one byte. -/
def store8 (m : Nat → Nat) (off v : Nat) : Nat → Nat :=
  fun j => if j = off then v % 256 else m j

/-- Little-endian store of a `u16`. -/
def storeLE16 (m : Nat → Nat) (off v : Nat) : Nat → Nat :=
  store8 (store8 m off v) (off + 1) (v / 2 ^ 8)

/-- Little-endian store of a `u32`. -/
def storeLE32 (m : Nat → Nat) (off v : Nat) : Nat → Nat :=
  store8 (store8 (store8 (store8 m off v) (off + 1) (v / 2 ^ 8)) (off + 2) (v / 2 ^ 16))
    (off + 3) (v / 2 ^ 24)

/-- Copy `n` bytes of `src` to offset `off`, as `std::memcpy`. -/
def memcpy (m : Nat → Nat) (off : Nat) (src : List Nat) (n : Nat) : Nat → Nat :=
  fun j => if off ≤ j ∧ j < off + n then src.getD (j - off) 0 % 256 else m j

/-! ## Data model

The report structures are declared in `wiicontroller.hpp` and
`switchcontroller.hpp`, which are not among the sources.  They are
reconstructed here from the fields the source file reads and writes, with the
widths the specification gives: one-bit button flags, an 8-bit battery field,
8-bit Nunchuck stick axes, 16-bit Wii U Pro stick values. -/

/-- The extension plugged into the remote (`WiiExtensionController_*`). -/
inductive WiiExtensionController
  | None
  | Nunchuck
  | Classic
  | ClassicPro
  | WiiUPro
  | Unsupported
  deriving DecidableEq, Repr

/-- Core buttons of the remote; each is a one-bit field. -/
structure WiiButtonData where
  dpad_left : Bool
  dpad_right : Bool
  dpad_down : Bool
  dpad_up : Bool
  plus : Bool
  two : Bool
  one : Bool
  B : Bool
  A : Bool
  minus : Bool
  home : Bool
  deriving DecidableEq, Repr

/-- Button bit-field of the Classic Controller (bytes 4-5 of its payload). -/
structure WiiClassicControllerButtonData where
  R : Bool
  plus : Bool
  home : Bool
  minus : Bool
  L : Bool
  dpad_down : Bool
  dpad_right : Bool
  dpad_up : Bool
  dpad_left : Bool
  ZR : Bool
  X : Bool
  A : Bool
  Y : Bool
  B : Bool
  ZL : Bool
  deriving DecidableEq, Repr

/-- Button bit-field of the Wii U Pro Controller. -/
structure WiiUProButtonData where
  R : Bool
  plus : Bool
  home : Bool
  minus : Bool
  L : Bool
  dpad_down : Bool
  dpad_right : Bool
  dpad_up : Bool
  dpad_left : Bool
  ZR : Bool
  X : Bool
  A : Bool
  Y : Bool
  B : Bool
  ZL : Bool
  rstick_press : Bool
  lstick_press : Bool
  deriving DecidableEq, Repr

/-- The fields of the Nunchuck payload that the decoder reads. -/
structure WiiNunchuckExtensionData where
  stick_x : Nat
  stick_y : Nat
  C : Bool
  Z : Bool
  deriving DecidableEq, Repr

/-- The Wii U Pro payload: four 16-bit stick values and the buttons. -/
structure WiiUProExtensionData where
  left_stick_x : Nat
  right_stick_x : Nat
  left_stick_y : Nat
  right_stick_y : Nat
  buttons : WiiUProButtonData
  deriving DecidableEq, Repr

/-- Status report: the fields the decoder reads. -/
structure WiiInputReport0x20 where
  extension_connected : Bool
  battery : Nat

/-- Memory-read result: `address` is the `u16` as the CPU loads it, `data` the
payload bytes. -/
structure WiiInputReport0x21 where
  address : Nat
  data : Nat → Nat

/-- Core buttons only. -/
structure WiiInputReport0x30 where
  buttons : WiiButtonData

/-- Core buttons and accelerometer (the latter is not read). -/
structure WiiInputReport0x31 where
  buttons : WiiButtonData

/-- Core buttons and extension payload bytes. -/
structure WiiInputReport0x32 where
  buttons : WiiButtonData
  extension : Nat → Nat

/-- Core buttons and extension payload bytes (long form). -/
structure WiiInputReport0x34 where
  buttons : WiiButtonData
  extension : Nat → Nat

/-- A raw input report.  In the source this is a one-byte id followed by a
union of the per-id payloads; the decoder only reads the member selected by
`id`, so the members are kept as independent fields. -/
structure WiiReportData where
  id : Nat
  input0x20 : WiiInputReport0x20
  input0x21 : WiiInputReport0x21
  input0x30 : WiiInputReport0x30
  input0x31 : WiiInputReport0x31
  input0x32 : WiiInputReport0x32
  input0x34 : WiiInputReport0x34

/-- Buttons of the normalized report that the decoder writes. -/
structure SwitchButtonData where
  Y : Bool
  X : Bool
  B : Bool
  A : Bool
  R : Bool
  ZR : Bool
  minus : Bool
  plus : Bool
  rstick_press : Bool
  lstick_press : Bool
  home : Bool
  dpad_down : Bool
  dpad_up : Bool
  dpad_right : Bool
  dpad_left : Bool
  L : Bool
  ZL : Bool
  deriving DecidableEq, Repr

/-- One stick of the normalized report. -/
structure SwitchStickData where
  x : Nat
  y : Nat
  deriving DecidableEq, Repr

/-- Body of the normalized report. -/
structure SwitchInputReport0x30 where
  timer : Nat
  conn_info : Nat
  battery : Nat
  buttons : SwitchButtonData
  left_stick : SwitchStickData
  right_stick : SwitchStickData
  deriving DecidableEq, Repr

/-- The normalized report: id and body. -/
structure SwitchReportData where
  id : Nat
  input0x30 : SwitchInputReport0x30
  deriving DecidableEq, Repr

/-- The output `bluetooth::HidReport`, its data seen as `SwitchReportData`. -/
structure SwitchHidReport where
  size : Nat
  data : SwitchReportData
  deriving DecidableEq, Repr

/-- A `bluetooth::HidReport` as a byte buffer. -/
structure HidReport where
  size : Nat
  data : Nat → Nat

/-- What the source takes from its environment.  The three `as...` functions
are the `reinterpret_cast`s of payload bytes to the bit-field structures of
`wiicontroller.hpp`, and `sizeofSwitchInputReport0x30` is
`sizeof(SwitchInputReport0x30)`; that header is not among the sources.
`castOutOfRange` is the value a `static_cast<uint16_t>` yields for a float
whose truncation is not a `uint16_t` (undefined in C++), `contract` says
whether the compiler fuses `a * b + c` into one operation, and
`sendHidReport` is the result the transport returns for a report sent to an
address. -/
structure Platform where
  sizeofSwitchInputReport0x30 : Nat
  asNunchuck : (Nat → Nat) → WiiNunchuckExtensionData
  asClassicButtons : Nat → Nat → WiiClassicControllerButtonData
  asWiiUPro : (Nat → Nat) → WiiUProExtensionData
  castOutOfRange : Int → Nat
  contract : Bool
  sendHidReport : Nat → List Nat → Nat

/-- The session object.  `s_outputReport` is the scratch buffer of outgoing
commands; `sent` is the log of the reports handed to the transport, oldest
first (each as the `size` bytes of the buffer at that moment). -/
structure WiiController where
  m_address : Nat
  m_extension : WiiExtensionController
  m_battery : Nat
  m_charging : Bool
  s_outputReport : HidReport
  sent : List (List Nat)

/-! ## Constants and helpers declared outside the source file -/

/-- Modelled from the spec: `STICK_ZERO`, "the centered stick coordinate value
(0x800)"; its definition is in a header that is not among the sources. -/
def STICK_ZERO : Nat := 0x800

/-- Modelled from the spec: `UINT12_MAX`, the 4095 of the scale factors
"4095/184", "4095/63", "4095/31"; defined in a header that is not among the
sources. -/
def UINT12_MAX : Nat := 0xfff

/-- Modelled from the spec: `sizeof(WiiOutputReport0x12)`, "reserved(1B)=0,
mode(1B)"; the structure is declared in `wiicontroller.hpp`. -/
def sizeofWiiOutputReport0x12 : Nat := 2

/-- Modelled from the spec: `sizeof(WiiOutputReport0x16)`, "big-endian
addr(4B), size(1B), data(≤16B)"; declared in `wiicontroller.hpp`. -/
def sizeofWiiOutputReport0x16 : Nat := 21

/-- Modelled from the spec: `sizeof(WiiOutputReport0x17)`, "big-endian
addr(4B), big-endian size(2B)"; declared in `wiicontroller.hpp`. -/
def sizeofWiiOutputReport0x17 : Nat := 6

/-- Modelled from the spec: offset of `output0x12._unk` in the buffer, the
"reserved(1B)" that follows the id byte; declared in `wiicontroller.hpp`. -/
def offsetOutput0x12Unk : Nat := 1

/-- Modelled from the spec: offset of `output0x12.report_mode`, the "mode(1B)"
after the reserved byte; declared in `wiicontroller.hpp`. -/
def offsetOutput0x12ReportMode : Nat := 2

/-- Modelled from the spec: offset of `output0x16.address`, the "addr(4B)"
that follows the id byte; declared in `wiicontroller.hpp`. -/
def offsetOutput0x16Address : Nat := 1

/-- Modelled from the spec: offset of `output0x16.size`, the "size(1B)" after
the address; declared in `wiicontroller.hpp`. -/
def offsetOutput0x16Size : Nat := 5

/-- Modelled from the spec: offset of `output0x16.data`, the "data(≤16B)"
after the size; declared in `wiicontroller.hpp`. -/
def offsetOutput0x16Data : Nat := 6

/-- Modelled from the spec: offset of `output0x17.address`, the "addr(4B)"
that follows the id byte; declared in `wiicontroller.hpp`. -/
def offsetOutput0x17Address : Nat := 1

/-- Modelled from the spec: offset of `output0x17.size`, the "size(2B)" after
the address; declared in `wiicontroller.hpp`. -/
def offsetOutput0x17Size : Nat := 5

/-- Modelled from the spec: `packStickData`, which stores a pair of stick
coordinates in a stick of the normalized report ("left-stick(x,y),
right-stick(x,y)"); it is defined in another file.  Its parameters are taken
to be `uint16_t`, the type its callers cast to. -/
def packStickData (x y : Int) : SwitchStickData :=
  { x := (x % 65536).toNat, y := (y % 65536).toNat }

/-- The float scale factors of the anonymous namespace. -/
def nunchuckStickScaleFactor : Int := F32.div (F32.ofInt UINT12_MAX) (F32.ofInt 0xb8)

/-- Scale factor of the Classic Controller left stick. -/
def leftStickScaleFactor : Int := F32.div (F32.ofInt UINT12_MAX) (F32.ofInt 0x3f)

/-- Scale factor of the Classic Controller right stick. -/
def rightStickScaleFactor : Int := F32.div (F32.ofInt UINT12_MAX) (F32.ofInt 0x1f)

/-- The float expression `a * b + c`, fused or not as the platform says. -/
def mulAdd (p : Platform) (a b c : Int) : Int :=
  if p.contract then F32.fma a b c else F32.add (F32.mul a b) c

/-- The conversion `static_cast<uint16_t>(f)` of a float. -/
def castU16 (p : Platform) (f : Int) : Nat :=
  if 0 ≤ F32.trunc f ∧ F32.trunc f < 65536 then (F32.trunc f).toNat
  else p.castOutOfRange f % 65536

/-- The expression `static_cast<uint16_t>(scale * d + STICK_ZERO)` shared by
the Nunchuck and Classic Controller mappings; `d` is the `int` operand. -/
def scaleStick (p : Platform) (scale : Int) (d : Int) : Nat :=
  castU16 p (mulAdd p scale (F32.ofInt d) (F32.ofInt STICK_ZERO))

/-- The function `std::clamp<uint16_t>(v, lo, hi)`. -/
def clampU16 (v lo hi : Nat) : Nat :=
  if v < lo then lo else if hi < v then hi else v

namespace WiiController

/-! ## Output commands -/

/-- The call `bluetooth::hid::report::SendHidReport(&m_address, &s_outputReport)`:
the first `size` bytes of the scratch buffer go to the transport, whose
result is returned. -/
def sendHidReport (p : Platform) (s : WiiController) : Nat × WiiController :=
  let bytes := (List.range s.s_outputReport.size).map s.s_outputReport.data
  (p.sendHidReport s.m_address bytes, { s with sent := s.sent ++ [bytes] })

/-- Source function `WiiController::writeMemory`.  The id is byte 0 of the
buffer; `size` is a `uint8_t`. -/
def writeMemory (p : Platform) (s : WiiController) (write_addr : Nat) (data : List Nat)
    (size : Nat) : Nat × WiiController :=
  let buf := s.s_outputReport.data
  let buf := store8 buf 0 0x16
  let buf := storeLE32 buf offsetOutput0x16Address (swapBytes32 write_addr)
  let buf := store8 buf offsetOutput0x16Size size
  let buf := memcpy buf offsetOutput0x16Data data (size % 256)
  sendHidReport p { s with s_outputReport := { size := sizeofWiiOutputReport0x16 + 1, data := buf } }

/-- Source function `WiiController::readMemory`. -/
def readMemory (p : Platform) (s : WiiController) (read_addr : Nat) (size : Nat) :
    Nat × WiiController :=
  let buf := s.s_outputReport.data
  let buf := store8 buf 0 0x17
  let buf := storeLE32 buf offsetOutput0x17Address (swapBytes32 read_addr)
  let buf := storeLE16 buf offsetOutput0x17Size (swapBytes16 size)
  sendHidReport p { s with s_outputReport := { size := sizeofWiiOutputReport0x17 + 1, data := buf } }

/-- Source function `WiiController::setReportMode`. -/
def setReportMode (p : Platform) (s : WiiController) (mode : Nat) : Nat × WiiController :=
  let buf := s.s_outputReport.data
  let buf := store8 buf 0 0x12
  let buf := store8 buf offsetOutput0x12Unk 0
  let buf := store8 buf offsetOutput0x12ReportMode mode
  sendHidReport p { s with s_outputReport := { size := sizeofWiiOutputReport0x12 + 1, data := buf } }

/-- Source function `WiiController::sendInit1`. -/
def sendInit1 (p : Platform) (s : WiiController) : Nat × WiiController :=
  let data := [0x55]
  writeMemory p s 0x04a400f0 data data.length

/-- Source function `WiiController::sendInit2`. -/
def sendInit2 (p : Platform) (s : WiiController) : Nat × WiiController :=
  let data := [0x00]
  writeMemory p s 0x04a400fb data data.length

/-! ## Button and extension mapping -/

/-- Source function `WiiController::mapButtonsHorizontalOrientation`. -/
def mapButtonsHorizontalOrientation (buttons : WiiButtonData) (dst : SwitchReportData) :
    SwitchReportData :=
  { dst with input0x30 := { dst.input0x30 with buttons := { dst.input0x30.buttons with
      dpad_down := buttons.dpad_left
      dpad_up := buttons.dpad_right
      dpad_right := buttons.dpad_down
      dpad_left := buttons.dpad_up
      A := buttons.two
      B := buttons.one
      R := buttons.A
      L := buttons.B
      minus := buttons.minus
      plus := buttons.plus
      home := buttons.home } } }

/-- Source function `WiiController::mapButtonsVerticalOrientation`. -/
def mapButtonsVerticalOrientation (buttons : WiiButtonData) (dst : SwitchReportData) :
    SwitchReportData :=
  { dst with input0x30 := { dst.input0x30 with buttons := { dst.input0x30.buttons with
      dpad_down := buttons.dpad_down
      dpad_up := buttons.dpad_up
      dpad_right := buttons.dpad_right
      dpad_left := buttons.dpad_left
      A := buttons.A
      B := buttons.B
      R := buttons.one
      ZR := buttons.two
      minus := buttons.minus
      plus := buttons.plus
      home := buttons.home } } }

/-- Source function `WiiController::mapNunchuckExtension`. -/
def mapNunchuckExtension (p : Platform) (ext : Nat → Nat) (dst : SwitchReportData) :
    SwitchReportData :=
  let extension := p.asNunchuck ext
  let left := packStickData
    (clampU16 (scaleStick p nunchuckStickScaleFactor ((extension.stick_x : Int) - 0x80)) 0 0xfff)
    (clampU16 (scaleStick p nunchuckStickScaleFactor ((extension.stick_y : Int) - 0x80)) 0 0xfff)
  { dst with input0x30 := { dst.input0x30 with
      left_stick := left
      buttons := { dst.input0x30.buttons with
        L := !extension.C
        ZL := !extension.Z } } }

/-- Source function `WiiController::mapClassicControllerExtension`. -/
def mapClassicControllerExtension (p : Platform) (ext : Nat → Nat) (dst : SwitchReportData) :
    SwitchReportData :=
  let left := packStickData
    (scaleStick p leftStickScaleFactor (((ext 0 &&& 0x3f : Nat) : Int) - 0x20) &&& 0xfff : Nat)
    (scaleStick p leftStickScaleFactor (((ext 1 &&& 0x3f : Nat) : Int) - 0x20) &&& 0xfff : Nat)
  let right := packStickData
    (scaleStick p rightStickScaleFactor
      (((((ext 0 >>> 3) &&& 0x18) ||| ((ext 1 >>> 5) &&& 0x06) ||| ((ext 2 >>> 7) &&& 0x01) : Nat)
        : Int) - 0x10) &&& 0xfff : Nat)
    (scaleStick p rightStickScaleFactor (((ext 2 &&& 0x1f : Nat) : Int) - 0x10) &&& 0xfff : Nat)
  let buttons := p.asClassicButtons (ext 4) (ext 5)
  { dst with input0x30 := { dst.input0x30 with
      left_stick := left
      right_stick := right
      buttons := { dst.input0x30.buttons with
        dpad_down := !buttons.dpad_down
        dpad_up := !buttons.dpad_up
        dpad_right := !buttons.dpad_right
        dpad_left := !buttons.dpad_left
        A := !buttons.A
        B := !buttons.B
        X := !buttons.X
        Y := !buttons.Y
        L := !buttons.L
        ZL := !buttons.ZL
        R := !buttons.R
        ZR := !buttons.ZR
        minus := !buttons.minus
        plus := !buttons.plus
        home := !buttons.home } } }

/-- The expression `((3 * (v - STICK_ZERO)) >> 1) + STICK_ZERO` in `int`
arithmetic (the shift of a negative value is arithmetic). -/
def rescaleWiiUPro (v : Nat) : Int :=
  (3 * ((v : Int) - (STICK_ZERO : Int))) / 2 + (STICK_ZERO : Int)

/-- Source function `WiiController::mapWiiUProControllerExtension`. -/
def mapWiiUProControllerExtension (p : Platform) (ext : Nat → Nat) (dst : SwitchReportData) :
    SwitchReportData :=
  let extension := p.asWiiUPro ext
  let left := packStickData (rescaleWiiUPro extension.left_stick_x)
    (rescaleWiiUPro extension.left_stick_y)
  let right := packStickData (rescaleWiiUPro extension.right_stick_x)
    (rescaleWiiUPro extension.right_stick_y)
  { dst with input0x30 := { dst.input0x30 with
      left_stick := left
      right_stick := right
      buttons := { dst.input0x30.buttons with
        dpad_down := !extension.buttons.dpad_down
        dpad_up := !extension.buttons.dpad_up
        dpad_right := !extension.buttons.dpad_right
        dpad_left := !extension.buttons.dpad_left
        A := !extension.buttons.A
        B := !extension.buttons.B
        X := !extension.buttons.X
        Y := !extension.buttons.Y
        R := !extension.buttons.R
        ZR := !extension.buttons.ZR
        L := !extension.buttons.L
        ZL := !extension.buttons.ZL
        minus := !extension.buttons.minus
        plus := !extension.buttons.plus
        lstick_press := !extension.buttons.lstick_press
        rstick_press := !extension.buttons.rstick_press
        home := !extension.buttons.home } } }

/-- Source function `WiiController::mapExtensionBytes`. -/
def mapExtensionBytes (p : Platform) (s : WiiController) (ext : Nat → Nat)
    (dst : SwitchReportData) : SwitchReportData :=
  match s.m_extension with
  | WiiExtensionController.Nunchuck => mapNunchuckExtension p ext dst
  | WiiExtensionController.Classic => mapClassicControllerExtension p ext dst
  | WiiExtensionController.ClassicPro => mapClassicControllerExtension p ext dst
  | WiiExtensionController.WiiUPro => mapWiiUProControllerExtension p ext dst
  | _ => dst

/-! ## Report handlers -/

/-- Source function `WiiController::handleInputReport0x20`.  The results of the
sends are discarded, as in the source; `m_battery` is a byte. -/
def handleInputReport0x20 (p : Platform) (s : WiiController) (src : WiiReportData)
    (dst : SwitchReportData) : WiiController × SwitchReportData :=
  let s :=
    if !src.input0x20.extension_connected then
      (setReportMode p { s with m_extension := WiiExtensionController.None } 0x31).2
    else if src.input0x20.extension_connected
        && (s.m_extension == WiiExtensionController.None) then
      let s := (sendInit1 p s).2
      let s := (sendInit2 p s).2
      (readMemory p s 0x04a400fa 6).2
    else s
  ({ s with m_battery := ((src.input0x20.battery / 52) <<< 1) % 256 }, dst)

/-- Source function `WiiController::handleInputReport0x21`. -/
def handleInputReport0x21 (p : Platform) (s : WiiController) (src : WiiReportData)
    (dst : SwitchReportData) : WiiController × SwitchReportData :=
  let read_addr := swapBytes16 src.input0x21.address
  if read_addr = 0x00fa then
    let extension_id := swapBytes64 (loadLE64 src.input0x21.data) >>> 16
    if extension_id = 0x0000A4200000 ∨ extension_id = 0xFF00A4200000 then
      ((setReportMode p { s with m_extension := WiiExtensionController.Nunchuck } 0x32).2, dst)
    else if extension_id = 0x0000A4200101 then
      ((setReportMode p { s with m_extension := WiiExtensionController.Classic } 0x32).2, dst)
    else if extension_id = 0x0100A4200101 then
      ((setReportMode p { s with m_extension := WiiExtensionController.ClassicPro } 0x32).2, dst)
    else if extension_id = 0x0000a4200120 then
      ((setReportMode p { s with m_extension := WiiExtensionController.WiiUPro } 0x34).2, dst)
    else
      ((setReportMode p { s with m_extension := WiiExtensionController.Unsupported } 0x31).2, dst)
  else (s, dst)

/-- Source function `WiiController::handleInputReport0x22`. -/
def handleInputReport0x22 (s : WiiController) (_src : WiiReportData)
    (dst : SwitchReportData) : WiiController × SwitchReportData :=
  (s, dst)

/-- Source function `WiiController::handleInputReport0x30`. -/
def handleInputReport0x30 (s : WiiController) (src : WiiReportData)
    (dst : SwitchReportData) : WiiController × SwitchReportData :=
  let dst := { dst with input0x30 := { dst.input0x30 with
    left_stick := packStickData STICK_ZERO STICK_ZERO } }
  let dst := { dst with input0x30 := { dst.input0x30 with
    right_stick := packStickData STICK_ZERO STICK_ZERO } }
  (s, mapButtonsHorizontalOrientation src.input0x30.buttons dst)

/-- Source function `WiiController::handleInputReport0x31`. -/
def handleInputReport0x31 (s : WiiController) (src : WiiReportData)
    (dst : SwitchReportData) : WiiController × SwitchReportData :=
  let dst := { dst with input0x30 := { dst.input0x30 with
    left_stick := packStickData STICK_ZERO STICK_ZERO } }
  let dst := { dst with input0x30 := { dst.input0x30 with
    right_stick := packStickData STICK_ZERO STICK_ZERO } }
  (s, mapButtonsHorizontalOrientation src.input0x31.buttons dst)

/-- Source function `WiiController::handleInputReport0x32`. -/
def handleInputReport0x32 (p : Platform) (s : WiiController) (src : WiiReportData)
    (dst : SwitchReportData) : WiiController × SwitchReportData :=
  let dst :=
    if s.m_extension = WiiExtensionController.Nunchuck
        ∨ s.m_extension = WiiExtensionController.Classic
        ∨ s.m_extension = WiiExtensionController.ClassicPro then
      mapButtonsVerticalOrientation src.input0x32.buttons dst
    else dst
  (s, mapExtensionBytes p s src.input0x32.extension dst)

/-- Source function `WiiController::handleInputReport0x34`. -/
def handleInputReport0x34 (p : Platform) (s : WiiController) (src : WiiReportData)
    (dst : SwitchReportData) : WiiController × SwitchReportData :=
  let dst :=
    if s.m_extension = WiiExtensionController.Nunchuck
        ∨ s.m_extension = WiiExtensionController.Classic
        ∨ s.m_extension = WiiExtensionController.ClassicPro then
      mapButtonsVerticalOrientation src.input0x34.buttons dst
    else dst
  (s, mapExtensionBytes p s src.input0x34.extension dst)

/-- The `switch (wiiReport->id)` of `convertReportFormat`. -/
def dispatch (p : Platform) (s : WiiController) (wiiReport : WiiReportData)
    (switchReport : SwitchReportData) : WiiController × SwitchReportData :=
  if wiiReport.id = 0x20 then handleInputReport0x20 p s wiiReport switchReport
  else if wiiReport.id = 0x21 then handleInputReport0x21 p s wiiReport switchReport
  else if wiiReport.id = 0x22 then handleInputReport0x22 s wiiReport switchReport
  else if wiiReport.id = 0x30 then handleInputReport0x30 s wiiReport switchReport
  else if wiiReport.id = 0x31 then handleInputReport0x31 s wiiReport switchReport
  else if wiiReport.id = 0x32 then handleInputReport0x32 p s wiiReport switchReport
  else if wiiReport.id = 0x34 then handleInputReport0x34 p s wiiReport switchReport
  else (s, switchReport)

/-- Source function `WiiController::convertReportFormat`.  `ms` is the value of
`os::ConvertToTimeSpan(os::GetSystemTick()).GetMilliSeconds()` at the call;
`outReport` is the caller's buffer, whose previous contents the function
starts from.  The battery and connection-info fields are stored as bytes. -/
def convertReportFormat (p : Platform) (ms : Nat) (s : WiiController) (inReport : WiiReportData)
    (outReport : SwitchHidReport) : WiiController × SwitchHidReport :=
  let r := dispatch p s inReport outReport.data
  let s := r.1
  let switchReport := r.2
  (s, { size := p.sizeofSwitchInputReport0x30 + 1
        data := { id := 0x30
                  input0x30 := { switchReport.input0x30 with
                    conn_info := 0x0
                    battery := (s.m_battery ||| s.m_charging.toNat) % 256
                    timer := ms &&& 0xff } } })

end WiiController

/-! ## Concrete instances used to evaluate the model -/

/-- One platform, for evaluating the model on examples: packed little-endian
payload layouts, a float conversion that yields 0 out of range, no
contraction, and a transport that always succeeds. -/
def examplePlatform : Platform where
  sizeofSwitchInputReport0x30 := 48
  asNunchuck := fun ext =>
    { stick_x := ext 0, stick_y := ext 1, C := (ext 5).testBit 1, Z := (ext 5).testBit 0 }
  asClassicButtons := fun b0 b1 =>
    { R := b0.testBit 1, plus := b0.testBit 2, home := b0.testBit 3, minus := b0.testBit 4
      L := b0.testBit 5, dpad_down := b0.testBit 6, dpad_right := b0.testBit 7
      dpad_up := b1.testBit 0, dpad_left := b1.testBit 1, ZR := b1.testBit 2, X := b1.testBit 3
      A := b1.testBit 4, Y := b1.testBit 5, B := b1.testBit 6, ZL := b1.testBit 7 }
  asWiiUPro := fun ext =>
    { left_stick_x := ext 0 + 256 * ext 1
      right_stick_x := ext 2 + 256 * ext 3
      left_stick_y := ext 4 + 256 * ext 5
      right_stick_y := ext 6 + 256 * ext 7
      buttons :=
        { R := (ext 8).testBit 1, plus := (ext 8).testBit 2, home := (ext 8).testBit 3
          minus := (ext 8).testBit 4, L := (ext 8).testBit 5, dpad_down := (ext 8).testBit 6
          dpad_right := (ext 8).testBit 7, dpad_up := (ext 9).testBit 0
          dpad_left := (ext 9).testBit 1, ZR := (ext 9).testBit 2, X := (ext 9).testBit 3
          A := (ext 9).testBit 4, Y := (ext 9).testBit 5, B := (ext 9).testBit 6
          ZL := (ext 9).testBit 7, rstick_press := (ext 10).testBit 0
          lstick_press := (ext 10).testBit 1 } }
  castOutOfRange := fun _ => 0
  contract := false
  sendHidReport := fun _ _ => 0

/-- A fresh session: no extension, empty scratch buffer, nothing sent. -/
def exampleSession : WiiController where
  m_address := 0
  m_extension := WiiExtensionController.None
  m_battery := 0
  m_charging := false
  s_outputReport := { size := 0, data := fun _ => 0 }
  sent := []

/-- All buttons released. -/
def noButtons : WiiButtonData :=
  { dpad_left := false, dpad_right := false, dpad_down := false, dpad_up := false
    plus := false, two := false, one := false, B := false, A := false, minus := false
    home := false }

/-- A raw report with the given id and every payload byte zero. -/
def exampleReport (id : Nat) : WiiReportData where
  id := id
  input0x20 := { extension_connected := false, battery := 0 }
  input0x21 := { address := 0, data := fun _ => 0 }
  input0x30 := { buttons := noButtons }
  input0x31 := { buttons := noButtons }
  input0x32 := { buttons := noButtons, extension := fun _ => 0 }
  input0x34 := { buttons := noButtons, extension := fun _ => 0 }

/-- An output buffer with every field zero. -/
def exampleOut : SwitchHidReport where
  size := 0
  data :=
    { id := 0
      input0x30 :=
        { timer := 0, conn_info := 0, battery := 0
          buttons :=
            { Y := false, X := false, B := false, A := false, R := false, ZR := false
              minus := false, plus := false, rstick_press := false, lstick_press := false
              home := false, dpad_down := false, dpad_up := false, dpad_right := false
              dpad_left := false, L := false, ZL := false }
          left_stick := { x := 0, y := 0 }
          right_stick := { x := 0, y := 0 } } }


/-- A 0x21 report answering the identification read with the Classic
Controller identity. -/
def classicIdReport : WiiReportData :=
  { exampleReport 0x21 with
    input0x21 := { address := 0xfa00, data := fun i => [0x00, 0x00, 0xa4, 0x20, 0x01, 0x01].getD i 0 } }

/-- A status report with the given extension flag and raw battery byte. -/
def statusReport (connected : Bool) (battery : Nat) : WiiReportData :=
  { exampleReport 0x20 with
    input0x20 := { extension_connected := connected, battery := battery } }


/-- Core buttons with dpad-left, "2" and "A" pressed. -/
def sampleButtons : WiiButtonData :=
  { noButtons with dpad_left := true, two := true, A := true }

/-- A button report with the given id, core buttons and extension bytes. -/
def buttonReport (id : Nat) (b : WiiButtonData) (ext : List Nat) : WiiReportData :=
  { exampleReport id with
    input0x30 := { buttons := b }
    input0x31 := { buttons := b }
    input0x32 := { buttons := b, extension := fun i => ext.getD i 0 }
    input0x34 := { buttons := b, extension := fun i => ext.getD i 0 } }

/-- The fresh session with an identified extension. -/
def sessionWith (e : WiiExtensionController) : WiiController :=
  { exampleSession with m_extension := e }

/-- The receive path of the transport: raw reports are delivered to
`convertReportFormat` one at a time, in order; each entry carries the clock
value of its call, and each call gets the output buffer as the previous call
left it. -/
def feed (p : Platform) :
    WiiController → SwitchHidReport → List (Nat × WiiReportData) → WiiController × SwitchHidReport
  | s, out, [] => (s, out)
  | s, out, x :: rest =>
    feed p (WiiController.convertReportFormat p x.1 s x.2 out).1
      (WiiController.convertReportFormat p x.1 s x.2 out).2 rest

/-- The bytes of the identification read `readMemory(0x04a400fa, 6)` as they
reach the transport. -/
def identificationRead : List Nat := [0x17, 0x04, 0xa4, 0x00, 0xfa, 0x00, 0x06]

/-- A 0x21 report carrying the Nunchuck identity, but for a read at address
0x00FB. -/
def nunchuckIdAtOtherAddress : WiiReportData :=
  { exampleReport 0x21 with
    input0x21 := { address := 0xfb00, data := fun i => [0x00, 0x00, 0xa4, 0x20, 0x00, 0x00].getD i 0 } }

/-- An output buffer that still holds an earlier report: Y pressed and the
sticks off centre. -/
def staleOut : SwitchHidReport :=
  { exampleOut with
    data := { exampleOut.data with
      input0x30 := { exampleOut.data.input0x30 with
        buttons := { exampleOut.data.input0x30.buttons with Y := true }
        left_stick := { x := 0x123, y := 0x456 }
        right_stick := { x := 0x789, y := 0xabc } } } }

/-- A platform on which a float outside the `uint16_t` range converts by
wrapping modulo 2^16, as a conversion through a wider signed integer does;
otherwise as `examplePlatform`. -/
def wrappingPlatform : Platform :=
  { examplePlatform with castOutOfRange := fun f => (F32.trunc f % 65536).toNat }

/-- The formula of the specification for a Nunchuck axis, in its own words:
`clamp(0, 0xFFF, round((axis − 0x80) × (4095/184)) + 0x800)`, with `round` the
nearest integer (half up), computed exactly. -/
def specNunchuckAxis (axis : Nat) : Int :=
  max 0 (min 0xfff ((2 * (((axis : Int) - 0x80) * 4095) + 184) / (2 * 184) + 0x800))

namespace WiiController

theorem extension_id_eq (m : Nat → Nat) (h : ∀ i, i < 8 → m i < 256) :
    swapBytes64 (loadLE64 m) >>> 16
      = m 0 * 2 ^ 40 + m 1 * 2 ^ 32 + m 2 * 2 ^ 24 + m 3 * 2 ^ 16 + m 4 * 2 ^ 8 + m 5 := by
  have h0 := h 0 (by norm_num)
  have h1 := h 1 (by norm_num)
  have h2 := h 2 (by norm_num)
  have h3 := h 3 (by norm_num)
  have h4 := h 4 (by norm_num)
  have h5 := h 5 (by norm_num)
  have h6 := h 6 (by norm_num)
  have h7 := h 7 (by norm_num)
  simp only [swapBytes64, loadLE64, Nat.shiftRight_eq_div_pow]
  norm_num
  omega

theorem swapBytes16_wire (a0 a1 : Nat) (h0 : a0 < 256) (h1 : a1 < 256) :
    swapBytes16 (a0 + 256 * a1) = a0 * 256 + a1 := by
  unfold swapBytes16
  omega

theorem setReportMode_sent (p : Platform) (s : WiiController) (mode : Nat) :
    (setReportMode p s mode).2.sent = s.sent ++ [[0x12, 0, mode % 256]] := by
  simp [setReportMode, sendHidReport, sizeofWiiOutputReport0x12, offsetOutput0x12Unk,
    offsetOutput0x12ReportMode, List.range_succ, store8]

theorem setReportMode_ext (p : Platform) (s : WiiController) (mode : Nat) :
    (setReportMode p s mode).2.m_extension = s.m_extension := rfl

theorem setReportMode_battery (p : Platform) (s : WiiController) (mode : Nat) :
    (setReportMode p s mode).2.m_battery = s.m_battery := rfl

theorem setReportMode_charging (p : Platform) (s : WiiController) (mode : Nat) :
    (setReportMode p s mode).2.m_charging = s.m_charging := rfl

theorem sendInit_sent (p : Platform) (s : WiiController) :
    (readMemory p (sendInit2 p (sendInit1 p s).2).2 0x04a400fa 6).2.sent
      = s.sent ++
        [ [0x16, 0x04, 0xa4, 0x00, 0xf0, 0x01, 0x55]
            ++ (List.range 15).map (fun i => s.s_outputReport.data (i + 7)),
          [0x16, 0x04, 0xa4, 0x00, 0xfb, 0x01, 0x00]
            ++ (List.range 15).map (fun i => s.s_outputReport.data (i + 7)),
          [0x17, 0x04, 0xa4, 0x00, 0xfa, 0x00, 0x06] ] := by
  simp [readMemory, sendInit1, sendInit2, writeMemory, sendHidReport, sizeofWiiOutputReport0x16,
    sizeofWiiOutputReport0x17, offsetOutput0x16Address, offsetOutput0x16Size,
    offsetOutput0x16Data, offsetOutput0x17Address, offsetOutput0x17Size, List.range_succ, store8,
    storeLE32, storeLE16, memcpy, swapBytes32, swapBytes16]

theorem sendInit_ext (p : Platform) (s : WiiController) :
    (readMemory p (sendInit2 p (sendInit1 p s).2).2 0x04a400fa 6).2.m_extension
      = s.m_extension := rfl

/-- The session after `convertReportFormat` is the one `dispatch` returns. -/
theorem convert_fst (p : Platform) (ms : Nat) (s : WiiController) (r : WiiReportData)
    (out : SwitchHidReport) :
    (convertReportFormat p ms s r out).1 = (dispatch p s r out.data).1 := rfl

/-- On a status report `dispatch` is `handleInputReport0x20`. -/
theorem dispatch_0x20 (p : Platform) (s : WiiController) (r : WiiReportData)
    (d : SwitchReportData) (h : r.id = 0x20) :
    dispatch p s r d = handleInputReport0x20 p s r d := by
  simp [dispatch, h]

/-- On a memory-read result `dispatch` is `handleInputReport0x21`. -/
theorem dispatch_0x21 (p : Platform) (s : WiiController) (r : WiiReportData)
    (d : SwitchReportData) (h : r.id = 0x21) :
    dispatch p s r d = handleInputReport0x21 p s r d := by
  simp [dispatch, h]

/-! ## Claims -/

/-- C1: a 0x21 report whose address field reads 0x00FA big-endian sets the
extension variant and sends exactly one SetReportMode command, both chosen by
the 48-bit big-endian value of the first six data bytes. -/
theorem C1_identification (p : Platform) (ms : Nat) (s : WiiController) (r : WiiReportData)
    (out : SwitchHidReport) (a0 a1 : Nat) (hid : r.id = 0x21)
    (ha0 : a0 < 256) (ha1 : a1 < 256) (haddr : r.input0x21.address = a0 + 256 * a1)
    (hbe : a0 * 256 + a1 = 0x00FA) (hdata : ∀ i, i < 8 → r.input0x21.data i < 256) :
    let d := r.input0x21.data
    let id := d 0 * 2 ^ 40 + d 1 * 2 ^ 32 + d 2 * 2 ^ 24 + d 3 * 2 ^ 16 + d 4 * 2 ^ 8 + d 5
    let t := (convertReportFormat p ms s r out).1
    (id = 0x0000A4200000 ∨ id = 0xFF00A4200000 →
        t.m_extension = WiiExtensionController.Nunchuck
          ∧ t.sent = s.sent ++ [[0x12, 0x00, 0x32]])
      ∧ (id = 0x0000A4200101 →
        t.m_extension = WiiExtensionController.Classic
          ∧ t.sent = s.sent ++ [[0x12, 0x00, 0x32]])
      ∧ (id = 0x0100A4200101 →
        t.m_extension = WiiExtensionController.ClassicPro
          ∧ t.sent = s.sent ++ [[0x12, 0x00, 0x32]])
      ∧ (id = 0x0000A4200120 →
        t.m_extension = WiiExtensionController.WiiUPro
          ∧ t.sent = s.sent ++ [[0x12, 0x00, 0x34]])
      ∧ (id ≠ 0x0000A4200000 ∧ id ≠ 0xFF00A4200000 ∧ id ≠ 0x0000A4200101
          ∧ id ≠ 0x0100A4200101 ∧ id ≠ 0x0000A4200120 →
        t.m_extension = WiiExtensionController.Unsupported
          ∧ t.sent = s.sent ++ [[0x12, 0x00, 0x31]]) := by
  intro d id t
  have haddr2 : swapBytes16 r.input0x21.address = 0x00fa := by
    rw [haddr, swapBytes16_wire a0 a1 ha0 ha1, hbe]
  have hidv : swapBytes64 (loadLE64 r.input0x21.data) >>> 16 = id := extension_id_eq _ hdata
  have ht : t = (handleInputReport0x21 p s r out.data).1 := by
    show (convertReportFormat p ms s r out).1 = _
    rw [convert_fst, dispatch_0x21 p s r out.data hid]
  simp only [handleInputReport0x21, haddr2, hidv, if_true] at ht
  refine ⟨?_, ?_, ?_, ?_, ?_⟩
  · intro h
    rw [ht, if_pos h]
    exact ⟨rfl, setReportMode_sent p _ _⟩
  · intro h
    rw [ht, h]
    exact ⟨rfl, setReportMode_sent p _ _⟩
  · intro h
    rw [ht, h]
    exact ⟨rfl, setReportMode_sent p _ _⟩
  · intro h
    rw [ht, h]
    exact ⟨rfl, setReportMode_sent p _ _⟩
  · intro h
    obtain ⟨h1, h2, h3, h4, h5⟩ := h
    rw [ht, if_neg (by simp [h1, h2]), if_neg h3, if_neg h4, if_neg h5]
    exact ⟨rfl, setReportMode_sent p _ _⟩


theorem C1_identification_witness :
    (convertReportFormat examplePlatform 0 exampleSession classicIdReport exampleOut).1.m_extension
        = WiiExtensionController.Classic
      ∧ (convertReportFormat examplePlatform 0 exampleSession classicIdReport exampleOut).1.sent
        = [[0x12, 0x00, 0x32]] :=
  (C1_identification examplePlatform 0 exampleSession classicIdReport exampleOut 0x00 0xfa rfl
    (by decide) (by decide) (by decide) (by decide) (by decide)).2.1 (by decide)

/-- C2: a status report with `extension_connected = false` leaves the variant
at None and sends exactly one command, SetReportMode(0x31), whose bytes are
report id 0x12, reserved byte 0, mode 0x31. -/
theorem C2_disconnected_status (p : Platform) (ms : Nat) (s : WiiController)
    (r : WiiReportData) (out : SwitchHidReport) (hid : r.id = 0x20)
    (hconn : r.input0x20.extension_connected = false) :
    (convertReportFormat p ms s r out).1.m_extension = WiiExtensionController.None
      ∧ (convertReportFormat p ms s r out).1.sent = s.sent ++ [[0x12, 0x00, 0x31]] := by
  rw [convert_fst, dispatch_0x20 p s r out.data hid]
  simp only [handleInputReport0x20, hconn]
  exact ⟨rfl, setReportMode_sent p _ _⟩

theorem C2_disconnected_status_witness :
    (convertReportFormat examplePlatform 0 exampleSession (statusReport false 208)
        exampleOut).1.m_extension = WiiExtensionController.None
      ∧ (convertReportFormat examplePlatform 0 exampleSession (statusReport false 208)
        exampleOut).1.sent = [[0x12, 0x00, 0x31]] :=
  C2_disconnected_status examplePlatform 0 exampleSession (statusReport false 208) exampleOut
    rfl rfl

/-- C3: with variant None, a status report with `extension_connected = true`
sends exactly three reports, in this order: the write of 0x55 to 0x04A400F0,
the write of 0x00 to 0x04A400FB and the read of 6 bytes at 0x04A400FA, for
every transport (so whatever each send returns); the variant stays None.
Each write report is 22 bytes: id 0x16, the address big-endian, size 1, the
data byte, and the 15 remaining bytes of the data field, which keep what the
scratch buffer held. -/
theorem C3_connected_status_starts_identification (p : Platform) (ms : Nat) (s : WiiController)
    (r : WiiReportData) (out : SwitchHidReport) (hid : r.id = 0x20)
    (hconn : r.input0x20.extension_connected = true)
    (hext : s.m_extension = WiiExtensionController.None) :
    (convertReportFormat p ms s r out).1.sent
        = s.sent ++
          [ [0x16, 0x04, 0xa4, 0x00, 0xf0, 0x01, 0x55]
              ++ (List.range 15).map (fun i => s.s_outputReport.data (i + 7)),
            [0x16, 0x04, 0xa4, 0x00, 0xfb, 0x01, 0x00]
              ++ (List.range 15).map (fun i => s.s_outputReport.data (i + 7)),
            [0x17, 0x04, 0xa4, 0x00, 0xfa, 0x00, 0x06] ]
      ∧ (convertReportFormat p ms s r out).1.m_extension = WiiExtensionController.None := by
  rw [convert_fst, dispatch_0x20 p s r out.data hid]
  simp only [handleInputReport0x20, hconn, hext]
  exact ⟨sendInit_sent p s, hext⟩

theorem C3_connected_status_starts_identification_witness :
    (convertReportFormat examplePlatform 0 exampleSession (statusReport true 208)
        exampleOut).1.sent
        = [ [0x16, 0x04, 0xa4, 0x00, 0xf0, 0x01, 0x55, 0, 0, 0, 0, 0, 0, 0, 0, 0, 0, 0, 0, 0, 0, 0],
            [0x16, 0x04, 0xa4, 0x00, 0xfb, 0x01, 0x00, 0, 0, 0, 0, 0, 0, 0, 0, 0, 0, 0, 0, 0, 0, 0],
            [0x17, 0x04, 0xa4, 0x00, 0xfa, 0x00, 0x06] ]
      ∧ (convertReportFormat examplePlatform 0 exampleSession (statusReport true 208)
        exampleOut).1.m_extension = WiiExtensionController.None :=
  C3_connected_status_starts_identification examplePlatform 0 exampleSession
    (statusReport true 208) exampleOut rfl rfl rfl

theorem handle20_battery (p : Platform) (s : WiiController) (r : WiiReportData)
    (d : SwitchReportData) :
    (handleInputReport0x20 p s r d).1.m_battery = ((r.input0x20.battery / 52) <<< 1) % 256 :=
  rfl

theorem handle20_charging (p : Platform) (s : WiiController) (r : WiiReportData)
    (d : SwitchReportData) :
    (handleInputReport0x20 p s r d).1.m_charging = s.m_charging := by
  unfold handleInputReport0x20
  split_ifs <;> rfl

theorem handle21_battery (p : Platform) (s : WiiController) (r : WiiReportData)
    (d : SwitchReportData) :
    (handleInputReport0x21 p s r d).1.m_battery = s.m_battery := by
  unfold handleInputReport0x21
  simp only
  split_ifs <;> rfl

theorem battery_scaled (raw : Nat) (h : raw < 256) :
    ((raw / 52) <<< 1) % 256 = (raw / 52) <<< 1 := by
  rw [Nat.shiftLeft_eq]
  omega

/-- The handlers keep `m_battery` a byte. -/
theorem dispatch_battery_lt (p : Platform) (s : WiiController) (r : WiiReportData)
    (d : SwitchReportData) (hb : s.m_battery < 256) :
    (dispatch p s r d).1.m_battery < 256 := by
  unfold dispatch
  split_ifs
  · rw [handle20_battery]
    exact Nat.mod_lt _ (by norm_num)
  · rw [handle21_battery]
    exact hb
  all_goals exact hb

theorem or_bool_lt (b : Nat) (c : Bool) (hb : b < 256) : b ||| c.toNat < 256 := by
  have hc : c.toNat < 2 ^ 8 := by cases c <;> simp
  exact Nat.or_lt_two_pow (n := 8) hb hc

/-- C4: whatever the id of the raw report, the report `convertReportFormat`
produces has id 0x30, size `sizeof(SwitchInputReport0x30) + 1`,
connection-info 0 and battery byte `m_battery | m_charging` of the session as
it is after the report was handled; for a status report that is the battery
level the report itself carries. -/
theorem C4_envelope (p : Platform) (ms : Nat) (s : WiiController) (r : WiiReportData)
    (out : SwitchHidReport) (hb : s.m_battery < 256) :
    (convertReportFormat p ms s r out).2.data.id = 0x30
      ∧ (convertReportFormat p ms s r out).2.size = p.sizeofSwitchInputReport0x30 + 1
      ∧ (convertReportFormat p ms s r out).2.data.input0x30.conn_info = 0
      ∧ (convertReportFormat p ms s r out).2.data.input0x30.battery
          = (convertReportFormat p ms s r out).1.m_battery
              ||| (convertReportFormat p ms s r out).1.m_charging.toNat
      ∧ (r.id = 0x20 → r.input0x20.battery < 256 →
          (convertReportFormat p ms s r out).2.data.input0x30.battery
            = ((r.input0x20.battery / 52) <<< 1) ||| s.m_charging.toNat) := by
  have hlt := or_bool_lt _ (dispatch p s r out.data).1.m_charging
    (dispatch_battery_lt p s r out.data hb)
  have hbat : (convertReportFormat p ms s r out).2.data.input0x30.battery
      = (dispatch p s r out.data).1.m_battery ||| (dispatch p s r out.data).1.m_charging.toNat :=
    Nat.mod_eq_of_lt hlt
  refine ⟨rfl, rfl, rfl, ?_, ?_⟩
  · rw [hbat, convert_fst]
  · intro hid hraw
    rw [hbat, dispatch_0x20 p s r out.data hid, handle20_battery, handle20_charging,
      battery_scaled _ hraw]

theorem C4_envelope_witness :
    (convertReportFormat examplePlatform 0 exampleSession (statusReport true 208)
        exampleOut).2.data.id = 0x30
      ∧ (convertReportFormat examplePlatform 0 exampleSession (statusReport true 208)
        exampleOut).2.size = 49
      ∧ (convertReportFormat examplePlatform 0 exampleSession (statusReport true 208)
        exampleOut).2.data.input0x30.battery = 8 :=
  ⟨(C4_envelope examplePlatform 0 exampleSession (statusReport true 208) exampleOut
      (by decide)).1,
    (C4_envelope examplePlatform 0 exampleSession (statusReport true 208) exampleOut
      (by decide)).2.1,
    (C4_envelope examplePlatform 0 exampleSession (statusReport true 208) exampleOut
      (by decide)).2.2.2.2 rfl (by decide)⟩

/-- C5: a 0x30 or 0x31 report centres both sticks at (0x800, 0x800) and maps
the core buttons through the horizontal table: dpad left/right/down/up go to
dpad down/up/right/left, "2" to A, "1" to B, "A" to R, "B" to L, and minus,
plus, home pass through. -/
theorem C5_core_reports_horizontal (p : Platform) (ms : Nat) (s : WiiController)
    (r : WiiReportData) (out : SwitchHidReport) (b : WiiButtonData)
    (h : (r.id = 0x30 ∧ b = r.input0x30.buttons) ∨ (r.id = 0x31 ∧ b = r.input0x31.buttons)) :
    let o := (convertReportFormat p ms s r out).2.data.input0x30
    o.left_stick = { x := 0x800, y := 0x800 }
      ∧ o.right_stick = { x := 0x800, y := 0x800 }
      ∧ o.buttons.dpad_down = b.dpad_left
      ∧ o.buttons.dpad_up = b.dpad_right
      ∧ o.buttons.dpad_right = b.dpad_down
      ∧ o.buttons.dpad_left = b.dpad_up
      ∧ o.buttons.A = b.two
      ∧ o.buttons.B = b.one
      ∧ o.buttons.R = b.A
      ∧ o.buttons.L = b.B
      ∧ o.buttons.minus = b.minus
      ∧ o.buttons.plus = b.plus
      ∧ o.buttons.home = b.home := by
  rcases h with ⟨hid, hb⟩ | ⟨hid, hb⟩
  · subst hb
    simp [convertReportFormat, dispatch, hid, handleInputReport0x30,
      mapButtonsHorizontalOrientation, packStickData, STICK_ZERO]
  · subst hb
    simp [convertReportFormat, dispatch, hid, handleInputReport0x31,
      mapButtonsHorizontalOrientation, packStickData, STICK_ZERO]


theorem C5_core_reports_horizontal_witness :
    (convertReportFormat examplePlatform 0 exampleSession (buttonReport 0x30 sampleButtons [])
        exampleOut).2.data.input0x30.left_stick = { x := 0x800, y := 0x800 }
      ∧ (convertReportFormat examplePlatform 0 exampleSession (buttonReport 0x30 sampleButtons [])
        exampleOut).2.data.input0x30.buttons.dpad_down = true
      ∧ (convertReportFormat examplePlatform 0 exampleSession (buttonReport 0x30 sampleButtons [])
        exampleOut).2.data.input0x30.buttons.R = true :=
  ⟨(C5_core_reports_horizontal examplePlatform 0 exampleSession
      (buttonReport 0x30 sampleButtons []) exampleOut sampleButtons (Or.inl ⟨rfl, rfl⟩)).1,
    (C5_core_reports_horizontal examplePlatform 0 exampleSession
      (buttonReport 0x30 sampleButtons []) exampleOut sampleButtons (Or.inl ⟨rfl, rfl⟩)).2.2.1,
    (C5_core_reports_horizontal examplePlatform 0 exampleSession
      (buttonReport 0x30 sampleButtons []) exampleOut sampleButtons
      (Or.inl ⟨rfl, rfl⟩)).2.2.2.2.2.2.2.2.1⟩

/-- C6: with variant Nunchuck, a 0x32 or 0x34 report maps the core buttons
through the vertical table (dpad unchanged, "A" to A, "B" to B, "1" to R, "2"
to ZR, minus, plus, home unchanged), and L, ZL are pressed iff the Nunchuck
C, Z bits are 0. -/
theorem C6_nunchuck_buttons (p : Platform) (ms : Nat) (s : WiiController)
    (r : WiiReportData) (out : SwitchHidReport) (b : WiiButtonData) (ext : Nat → Nat)
    (hext : s.m_extension = WiiExtensionController.Nunchuck)
    (h : (r.id = 0x32 ∧ b = r.input0x32.buttons ∧ ext = r.input0x32.extension)
      ∨ (r.id = 0x34 ∧ b = r.input0x34.buttons ∧ ext = r.input0x34.extension)) :
    let o := (convertReportFormat p ms s r out).2.data.input0x30.buttons
    o.dpad_down = b.dpad_down
      ∧ o.dpad_up = b.dpad_up
      ∧ o.dpad_right = b.dpad_right
      ∧ o.dpad_left = b.dpad_left
      ∧ o.A = b.A
      ∧ o.B = b.B
      ∧ o.R = b.one
      ∧ o.ZR = b.two
      ∧ o.minus = b.minus
      ∧ o.plus = b.plus
      ∧ o.home = b.home
      ∧ o.L = !(p.asNunchuck ext).C
      ∧ o.ZL = !(p.asNunchuck ext).Z := by
  rcases h with ⟨hid, hb, he⟩ | ⟨hid, hb, he⟩
  · subst hb he
    simp [convertReportFormat, dispatch, hid, handleInputReport0x32, mapExtensionBytes, hext,
      mapButtonsVerticalOrientation, mapNunchuckExtension]
  · subst hb he
    simp [convertReportFormat, dispatch, hid, handleInputReport0x34, mapExtensionBytes, hext,
      mapButtonsVerticalOrientation, mapNunchuckExtension]

theorem C6_nunchuck_buttons_witness :
    (convertReportFormat examplePlatform 0 (sessionWith WiiExtensionController.Nunchuck)
        (buttonReport 0x32 sampleButtons [0x80, 0x80, 0, 0, 0, 0x02]) exampleOut
      ).2.data.input0x30.buttons.ZR = true
      ∧ (convertReportFormat examplePlatform 0 (sessionWith WiiExtensionController.Nunchuck)
        (buttonReport 0x32 sampleButtons [0x80, 0x80, 0, 0, 0, 0x02]) exampleOut
      ).2.data.input0x30.buttons.ZL = true :=
  ⟨(C6_nunchuck_buttons examplePlatform 0 (sessionWith WiiExtensionController.Nunchuck)
      (buttonReport 0x32 sampleButtons [0x80, 0x80, 0, 0, 0, 0x02]) exampleOut sampleButtons
      (fun i => [0x80, 0x80, 0, 0, 0, 0x02].getD i 0) rfl
      (Or.inl ⟨rfl, rfl, rfl⟩)).2.2.2.2.2.2.2.1,
    (C6_nunchuck_buttons examplePlatform 0 (sessionWith WiiExtensionController.Nunchuck)
      (buttonReport 0x32 sampleButtons [0x80, 0x80, 0, 0, 0, 0x02]) exampleOut sampleButtons
      (fun i => [0x80, 0x80, 0, 0, 0, 0x02].getD i 0) rfl
      (Or.inl ⟨rfl, rfl, rfl⟩)).2.2.2.2.2.2.2.2.2.2.2.2⟩

/-- C7: with variant Classic or ClassicPro, a 0x32 report sets each of the
fifteen buttons dpad_down, dpad_up, dpad_right, dpad_left, A, B, X, Y, L, ZL,
R, ZR, minus, plus, home to pressed iff the same-named bit of the extension
button field (payload bytes 4-5) is 0, whatever the core buttons are. -/
theorem C7_classic_buttons (p : Platform) (ms : Nat) (s : WiiController)
    (r : WiiReportData) (out : SwitchHidReport) (hid : r.id = 0x32)
    (hext : s.m_extension = WiiExtensionController.Classic
      ∨ s.m_extension = WiiExtensionController.ClassicPro) :
    let o := (convertReportFormat p ms s r out).2.data.input0x30.buttons
    let c := p.asClassicButtons (r.input0x32.extension 4) (r.input0x32.extension 5)
    o.dpad_down = !c.dpad_down
      ∧ o.dpad_up = !c.dpad_up
      ∧ o.dpad_right = !c.dpad_right
      ∧ o.dpad_left = !c.dpad_left
      ∧ o.A = !c.A
      ∧ o.B = !c.B
      ∧ o.X = !c.X
      ∧ o.Y = !c.Y
      ∧ o.L = !c.L
      ∧ o.ZL = !c.ZL
      ∧ o.R = !c.R
      ∧ o.ZR = !c.ZR
      ∧ o.minus = !c.minus
      ∧ o.plus = !c.plus
      ∧ o.home = !c.home := by
  rcases hext with hext | hext
  · simp [convertReportFormat, dispatch, hid, handleInputReport0x32, mapExtensionBytes, hext,
      mapClassicControllerExtension]
  · simp [convertReportFormat, dispatch, hid, handleInputReport0x32, mapExtensionBytes, hext,
      mapClassicControllerExtension]

theorem C7_classic_buttons_witness :
    (convertReportFormat examplePlatform 0 (sessionWith WiiExtensionController.Classic)
        (buttonReport 0x32 sampleButtons [0x20, 0x20, 0x10, 0, 0xff, 0xef]) exampleOut
      ).2.data.input0x30.buttons.A = true
      ∧ (convertReportFormat examplePlatform 0 (sessionWith WiiExtensionController.Classic)
        (buttonReport 0x32 sampleButtons [0x20, 0x20, 0x10, 0, 0xff, 0xef]) exampleOut
      ).2.data.input0x30.buttons.dpad_left = false :=
  ⟨(C7_classic_buttons examplePlatform 0 (sessionWith WiiExtensionController.Classic)
      (buttonReport 0x32 sampleButtons [0x20, 0x20, 0x10, 0, 0xff, 0xef]) exampleOut rfl
      (Or.inl rfl)).2.2.2.2.1,
    (C7_classic_buttons examplePlatform 0 (sessionWith WiiExtensionController.Classic)
      (buttonReport 0x32 sampleButtons [0x20, 0x20, 0x10, 0, 0xff, 0xef]) exampleOut rfl
      (Or.inl rfl)).2.2.2.1⟩

/-- A zero operand scales to the centre, for every scale factor and platform. -/
theorem scaleStick_zero (p : Platform) (scale : Int) : scaleStick p scale 0 = 0x800 := by
  have h0 : F32.ofInt 0 = 0 := by decide!
  have hz : F32.mul scale 0 = 0 := by
    rw [F32.mul, Int.mul_zero]
    decide!
  have hadd : F32.add 0 (F32.ofInt STICK_ZERO) = F32.ofInt STICK_ZERO := by decide!
  have hfma : F32.fma scale 0 (F32.ofInt STICK_ZERO) = F32.ofInt STICK_ZERO := by
    rw [F32.fma, Int.mul_zero, Int.zero_add]
    decide!
  have htr : F32.trunc (F32.ofInt STICK_ZERO) = 2048 := by decide!
  have hm : mulAdd p scale (F32.ofInt 0) (F32.ofInt STICK_ZERO) = F32.ofInt STICK_ZERO := by
    unfold mulAdd
    rw [h0]
    cases p.contract
    · simp [hz, hadd]
    · simp [hfma]
  unfold scaleStick castU16
  rw [hm, htr]
  rfl

theorem clampU16_le (v : Nat) : clampU16 v 0 0xfff ≤ 0xfff := by
  unfold clampU16
  split_ifs <;> omega

theorem clampU16_centre : clampU16 0x800 0 0xfff = 0x800 := by decide

theorem and_mask_le (v : Nat) : v &&& 0xfff ≤ 0xfff := Nat.and_le_right

theorem packStickData_x_le (a b : Nat) (ha : a ≤ 0xfff) :
    (packStickData (a : Int) (b : Int)).x ≤ 0xfff := by
  unfold packStickData
  simp only
  omega

theorem packStickData_y_le (a b : Nat) (hb : b ≤ 0xfff) :
    (packStickData (a : Int) (b : Int)).y ≤ 0xfff := by
  unfold packStickData
  simp only
  omega

/-- The Nunchuck path clamps and the Classic Controller path masks: with these
variants every coordinate handed to the normalized report by a 0x32 or 0x34
report is at most 0xFFF, for every payload and every platform. -/
theorem bounded_variants_stick_range (p : Platform) (ms : Nat) (s : WiiController)
    (r : WiiReportData) (out : SwitchHidReport) (hid : r.id = 0x32 ∨ r.id = 0x34) :
    let o := (convertReportFormat p ms s r out).2.data.input0x30
    (s.m_extension = WiiExtensionController.Nunchuck →
        o.left_stick.x ≤ 0xfff ∧ o.left_stick.y ≤ 0xfff)
      ∧ (s.m_extension = WiiExtensionController.Classic
          ∨ s.m_extension = WiiExtensionController.ClassicPro →
        o.left_stick.x ≤ 0xfff ∧ o.left_stick.y ≤ 0xfff
          ∧ o.right_stick.x ≤ 0xfff ∧ o.right_stick.y ≤ 0xfff) := by
  intro o
  have hN : ∀ (ext : Nat → Nat) (d : SwitchReportData),
      (mapNunchuckExtension p ext d).input0x30.left_stick.x ≤ 0xfff
        ∧ (mapNunchuckExtension p ext d).input0x30.left_stick.y ≤ 0xfff := fun ext d =>
    ⟨packStickData_x_le _ _ (clampU16_le _), packStickData_y_le _ _ (clampU16_le _)⟩
  have hC : ∀ (ext : Nat → Nat) (d : SwitchReportData),
      (mapClassicControllerExtension p ext d).input0x30.left_stick.x ≤ 0xfff
        ∧ (mapClassicControllerExtension p ext d).input0x30.left_stick.y ≤ 0xfff
        ∧ (mapClassicControllerExtension p ext d).input0x30.right_stick.x ≤ 0xfff
        ∧ (mapClassicControllerExtension p ext d).input0x30.right_stick.y ≤ 0xfff := fun ext d =>
    ⟨packStickData_x_le _ _ (and_mask_le _), packStickData_y_le _ _ (and_mask_le _),
      packStickData_x_le _ _ (and_mask_le _), packStickData_y_le _ _ (and_mask_le _)⟩
  have ho : o.left_stick = (dispatch p s r out.data).2.input0x30.left_stick
      ∧ o.right_stick = (dispatch p s r out.data).2.input0x30.right_stick := ⟨rfl, rfl⟩
  rw [ho.1, ho.2]
  rcases hid with hid | hid
  · have hd : dispatch p s r out.data = handleInputReport0x32 p s r out.data := by
      simp [dispatch, hid]
    rw [hd]
    refine ⟨fun hext => ?_, fun hext => ?_⟩
    · simp only [handleInputReport0x32, mapExtensionBytes, hext]
      exact hN _ _
    · rcases hext with hext | hext
      · simp only [handleInputReport0x32, mapExtensionBytes, hext]
        exact hC _ _
      · simp only [handleInputReport0x32, mapExtensionBytes, hext]
        exact hC _ _
  · have hd : dispatch p s r out.data = handleInputReport0x34 p s r out.data := by
      simp [dispatch, hid]
    rw [hd]
    refine ⟨fun hext => ?_, fun hext => ?_⟩
    · simp only [handleInputReport0x34, mapExtensionBytes, hext]
      exact hN _ _
    · rcases hext with hext | hext
      · simp only [handleInputReport0x34, mapExtensionBytes, hext]
        exact hC _ _
      · simp only [handleInputReport0x34, mapExtensionBytes, hext]
        exact hC _ _

/-- C8 on the Wii U Pro path: with variant WiiUPro, a 0x34 report whose 16-bit
left-stick X is a 12-bit value from 0xD56 up hands a coordinate above 0xFFF
to the normalized report; the expression has neither clamp nor mask. -/
theorem C8_wiiupro_stick_out_of_range (p : Platform) (ms : Nat) (s : WiiController)
    (r : WiiReportData) (out : SwitchHidReport)
    (hext : s.m_extension = WiiExtensionController.WiiUPro) (hid : r.id = 0x34)
    (hlo : 0xd56 ≤ (p.asWiiUPro r.input0x34.extension).left_stick_x)
    (hhi : (p.asWiiUPro r.input0x34.extension).left_stick_x ≤ 0xfff) :
    0xfff < (convertReportFormat p ms s r out).2.data.input0x30.left_stick.x := by
  have hx : (convertReportFormat p ms s r out).2.data.input0x30.left_stick.x
      = ((rescaleWiiUPro (p.asWiiUPro r.input0x34.extension).left_stick_x) % 65536).toNat := by
    simp [convertReportFormat, dispatch, hid, handleInputReport0x34, mapExtensionBytes, hext,
      mapWiiUProControllerExtension, packStickData]
  rw [hx]
  have hy : 4097 ≤ rescaleWiiUPro (p.asWiiUPro r.input0x34.extension).left_stick_x
      ∧ rescaleWiiUPro (p.asWiiUPro r.input0x34.extension).left_stick_x ≤ 5118 := by
    simp only [rescaleWiiUPro, STICK_ZERO, Nat.cast_ofNat]
    omega
  rw [Int.emod_eq_of_lt (by omega) (by omega)]
  omega

theorem C8_wiiupro_stick_out_of_range_witness :
    0xfff < (convertReportFormat examplePlatform 0 (sessionWith WiiExtensionController.WiiUPro)
        (buttonReport 0x34 noButtons [0xff, 0x0f, 0x00, 0x08, 0x00, 0x08, 0x00, 0x08])
        exampleOut).2.data.input0x30.left_stick.x :=
  C8_wiiupro_stick_out_of_range examplePlatform 0 (sessionWith WiiExtensionController.WiiUPro)
    (buttonReport 0x34 noButtons [0xff, 0x0f, 0x00, 0x08, 0x00, 0x08, 0x00, 0x08]) exampleOut
    rfl rfl (by decide) (by decide)

/-- C9: a stick at rest decodes to the exact centre.  With variant Nunchuck a
payload with `stick_x = stick_y = 0x80` gives left stick (0x800, 0x800); with
variant Classic or ClassicPro a byte 0 whose low six bits are 0x20 gives
left-stick X = 0x800.  Nothing else in the payload matters. -/
theorem C9_rest_position_centre (p : Platform) (ms : Nat) (s : WiiController)
    (r : WiiReportData) (out : SwitchHidReport) (ext : Nat → Nat)
    (h : (r.id = 0x32 ∧ ext = r.input0x32.extension)
      ∨ (r.id = 0x34 ∧ ext = r.input0x34.extension)) :
    let o := (convertReportFormat p ms s r out).2.data.input0x30
    (s.m_extension = WiiExtensionController.Nunchuck →
        (p.asNunchuck ext).stick_x = 0x80 → (p.asNunchuck ext).stick_y = 0x80 →
        o.left_stick = { x := 0x800, y := 0x800 })
      ∧ (s.m_extension = WiiExtensionController.Classic
          ∨ s.m_extension = WiiExtensionController.ClassicPro →
        ext 0 % 64 = 0x20 → o.left_stick.x = 0x800) := by
  have hmask : ∀ v : Nat, v &&& 0x3f = v % 64 := fun v => Nat.and_pow_two_sub_one_eq_mod v 6
  have hc : ∀ hx : Nat, hx % 64 = 0x20 →
      (((hx &&& 0x3f : Nat) : Int) - 0x20) = 0 := by
    intro hx hh
    rw [hmask, hh]
    rfl
  rcases h with ⟨hid, he⟩ | ⟨hid, he⟩
  · subst he
    refine ⟨?_, ?_⟩
    · intro hext hx hy
      simp [convertReportFormat, dispatch, hid, handleInputReport0x32, mapExtensionBytes, hext,
        mapButtonsVerticalOrientation, mapNunchuckExtension, hx, hy, scaleStick_zero,
        clampU16_centre, packStickData]
    · intro hext h0
      have h0c := hc _ h0
      rcases hext with hext | hext
      · simp [convertReportFormat, dispatch, hid, handleInputReport0x32, mapExtensionBytes, hext,
          mapButtonsVerticalOrientation, mapClassicControllerExtension, h0c, scaleStick_zero,
          packStickData]
        rfl
      · simp [convertReportFormat, dispatch, hid, handleInputReport0x32, mapExtensionBytes, hext,
          mapButtonsVerticalOrientation, mapClassicControllerExtension, h0c, scaleStick_zero,
          packStickData]
        rfl
  · subst he
    refine ⟨?_, ?_⟩
    · intro hext hx hy
      simp [convertReportFormat, dispatch, hid, handleInputReport0x34, mapExtensionBytes, hext,
        mapButtonsVerticalOrientation, mapNunchuckExtension, hx, hy, scaleStick_zero,
        clampU16_centre, packStickData]
    · intro hext h0
      have h0c := hc _ h0
      rcases hext with hext | hext
      · simp [convertReportFormat, dispatch, hid, handleInputReport0x34, mapExtensionBytes, hext,
          mapButtonsVerticalOrientation, mapClassicControllerExtension, h0c, scaleStick_zero,
          packStickData]
        rfl
      · simp [convertReportFormat, dispatch, hid, handleInputReport0x34, mapExtensionBytes, hext,
          mapButtonsVerticalOrientation, mapClassicControllerExtension, h0c, scaleStick_zero,
          packStickData]
        rfl

theorem C9_rest_position_centre_witness :
    (convertReportFormat examplePlatform 0 (sessionWith WiiExtensionController.Nunchuck)
        (buttonReport 0x32 sampleButtons [0x80, 0x80, 0x12, 0x34, 0x56, 0x03]) exampleOut
      ).2.data.input0x30.left_stick = { x := 0x800, y := 0x800 }
      ∧ (convertReportFormat examplePlatform 0 (sessionWith WiiExtensionController.ClassicPro)
        (buttonReport 0x32 sampleButtons [0xe0, 0x00, 0x10, 0, 0xff, 0xff]) exampleOut
      ).2.data.input0x30.left_stick.x = 0x800 :=
  ⟨(C9_rest_position_centre examplePlatform 0 (sessionWith WiiExtensionController.Nunchuck)
      (buttonReport 0x32 sampleButtons [0x80, 0x80, 0x12, 0x34, 0x56, 0x03]) exampleOut
      (fun i => [0x80, 0x80, 0x12, 0x34, 0x56, 0x03].getD i 0) (Or.inl ⟨rfl, rfl⟩)).1
      rfl rfl rfl,
    (C9_rest_position_centre examplePlatform 0 (sessionWith WiiExtensionController.ClassicPro)
      (buttonReport 0x32 sampleButtons [0xe0, 0x00, 0x10, 0, 0xff, 0xff]) exampleOut
      (fun i => [0xe0, 0x00, 0x10, 0, 0xff, 0xff].getD i 0) (Or.inl ⟨rfl, rfl⟩)).2
      (Or.inr rfl) (by decide)⟩

/-- C10: after a status report with raw battery byte `raw`, the session
battery is `(raw / 52) << 1`, whatever the extension flag of the report and
the variant of the session. -/
theorem C10_battery_scaling (p : Platform) (ms : Nat) (s : WiiController)
    (r : WiiReportData) (out : SwitchHidReport) (hid : r.id = 0x20)
    (hraw : r.input0x20.battery < 256) :
    (convertReportFormat p ms s r out).1.m_battery = (r.input0x20.battery / 52) <<< 1 := by
  rw [convert_fst, dispatch_0x20 p s r out.data hid, handle20_battery, battery_scaled _ hraw]

theorem C10_battery_scaling_witness :
    (convertReportFormat examplePlatform 0 (sessionWith WiiExtensionController.Classic)
        (statusReport true 208) exampleOut).1.m_battery = 8
      ∧ (convertReportFormat examplePlatform 0 exampleSession
        (statusReport false 0) exampleOut).1.m_battery = 0 :=
  ⟨C10_battery_scaling examplePlatform 0 (sessionWith WiiExtensionController.Classic)
      (statusReport true 208) exampleOut rfl (by decide),
    C10_battery_scaling examplePlatform 0 exampleSession (statusReport false 0) exampleOut rfl
      (by decide)⟩


/-! ## Claims on sequences of reports and on reports that change nothing -/

theorem feed_nil (p : Platform) (s : WiiController) (out : SwitchHidReport) :
    feed p s out [] = (s, out) := rfl

theorem feed_cons (p : Platform) (s : WiiController) (out : SwitchHidReport)
    (x : Nat × WiiReportData) (rest : List (Nat × WiiReportData)) :
    feed p s out (x :: rest)
      = feed p (convertReportFormat p x.1 s x.2 out).1 (convertReportFormat p x.1 s x.2 out).2
          rest := rfl

/-- A status report with the extension flag set, received with variant None,
adds exactly one identification read to the log and leaves the variant None. -/
theorem status_connected_none (p : Platform) (ms : Nat) (s : WiiController) (r : WiiReportData)
    (out : SwitchHidReport) (hid : r.id = 0x20)
    (hconn : r.input0x20.extension_connected = true)
    (hext : s.m_extension = WiiExtensionController.None) :
    (convertReportFormat p ms s r out).1.sent.count identificationRead
        = s.sent.count identificationRead + 1
      ∧ (convertReportFormat p ms s r out).1.m_extension = WiiExtensionController.None := by
  rw [convert_fst, dispatch_0x20 p s r out.data hid]
  simp only [handleInputReport0x20, hconn, hext]
  refine ⟨?_, hext⟩
  show (readMemory p (sendInit2 p (sendInit1 p s).2).2 0x04a400fa 6).2.sent.count
    identificationRead = _
  rw [sendInit_sent]
  simp [identificationRead, List.count_cons]

/-- A run of status reports with the extension flag set, started with variant
None, adds one identification read per report. -/
theorem run_connected_none (p : Platform) (rs : List (Nat × WiiReportData)) :
    ∀ (s : WiiController) (out : SwitchHidReport),
      s.m_extension = WiiExtensionController.None →
      (∀ x ∈ rs, x.2.id = 0x20 ∧ x.2.input0x20.extension_connected = true) →
      (feed p s out rs).1.sent.count identificationRead
        = s.sent.count identificationRead + rs.length := by
  induction rs with
  | nil => intro s out _ _; rfl
  | cons x rest ih =>
    intro s out hext hall
    have hx := hall x (List.mem_cons_self x rest)
    have hstep := status_connected_none p x.1 s x.2 out hx.1 hx.2 hext
    rw [feed_cons, ih _ _ hstep.2 (fun y hy => hall y (List.mem_cons_of_mem x hy)), hstep.1,
      List.length_cons]
    omega

/-- C11 (as the code has it): identification is requested by every status
report with `extension_connected = true` that arrives while the variant is
None.  After a status report with `extension_connected = false`, a run of
`n` status reports with the flag set, nothing else in between, emits the
identification read `n` times. -/
theorem C11_identification_per_status_report (p : Platform) (s : WiiController)
    (out : SwitchHidReport) (x0 : Nat × WiiReportData) (rs : List (Nat × WiiReportData))
    (h0 : x0.2.id = 0x20 ∧ x0.2.input0x20.extension_connected = false)
    (hrun : ∀ x ∈ rs, x.2.id = 0x20 ∧ x.2.input0x20.extension_connected = true) :
    (feed p s out (x0 :: rs)).1.sent.count identificationRead
      = s.sent.count identificationRead + rs.length := by
  have hs : (convertReportFormat p x0.1 s x0.2 out).1.m_extension = WiiExtensionController.None
      ∧ (convertReportFormat p x0.1 s x0.2 out).1.sent = s.sent ++ [[0x12, 0x00, 0x31]] := by
    rw [convert_fst, dispatch_0x20 p s x0.2 out.data h0.1]
    simp only [handleInputReport0x20, h0.2]
    exact ⟨rfl, setReportMode_sent p _ _⟩
  rw [feed_cons, run_connected_none p rs _ _ hs.1 hrun, hs.2]
  simp [identificationRead, List.count_cons]

theorem C11_identification_per_status_report_witness :
    (feed examplePlatform exampleSession exampleOut
        [(0, statusReport false 208), (1, statusReport true 208)]).1.sent.count
        identificationRead = 1 :=
  C11_identification_per_status_report examplePlatform exampleSession exampleOut
    (0, statusReport false 208) [(1, statusReport true 208)] ⟨rfl, rfl⟩
    (by
      intro x hx
      rw [List.mem_singleton] at hx
      subst hx
      exact ⟨rfl, rfl⟩)

/-- C11 as stated fails: after a status report with the flag clear, two status
reports with the flag set emit the identification read twice. -/
theorem C11_read_emitted_twice :
    (feed examplePlatform exampleSession exampleOut
        [(0, statusReport false 208), (1, statusReport true 208),
          (2, statusReport true 208)]).1.sent.count identificationRead = 2 := by
  decide

/-- The handlers of the button reports return the session they were given. -/
theorem dispatch_button_report (p : Platform) (s : WiiController) (r : WiiReportData)
    (d : SwitchReportData) (hid : r.id = 0x30 ∨ r.id = 0x31 ∨ r.id = 0x32 ∨ r.id = 0x34) :
    (dispatch p s r d).1 = s := by
  rcases hid with hid | hid | hid | hid <;>
    simp [dispatch, hid, handleInputReport0x30, handleInputReport0x31, handleInputReport0x32,
      handleInputReport0x34]

/-- C12: a report with id 0x30, 0x31, 0x32 or 0x34 emits no outgoing command
(the log of sent reports is unchanged, so in particular no SetReportMode) and
leaves the variant, the battery and the charging flag as they were. -/
theorem C12_button_reports_send_nothing (p : Platform) (ms : Nat) (s : WiiController)
    (r : WiiReportData) (out : SwitchHidReport)
    (hid : r.id = 0x30 ∨ r.id = 0x31 ∨ r.id = 0x32 ∨ r.id = 0x34) :
    (convertReportFormat p ms s r out).1.sent = s.sent
      ∧ (convertReportFormat p ms s r out).1.m_extension = s.m_extension
      ∧ (convertReportFormat p ms s r out).1.m_battery = s.m_battery
      ∧ (convertReportFormat p ms s r out).1.m_charging = s.m_charging := by
  rw [convert_fst, dispatch_button_report p s r out.data hid]
  exact ⟨rfl, rfl, rfl, rfl⟩

theorem C12_button_reports_send_nothing_witness :
    (convertReportFormat examplePlatform 0 (sessionWith WiiExtensionController.Nunchuck)
        (buttonReport 0x32 sampleButtons [0x80, 0x80, 0, 0, 0, 0x02]) exampleOut).1.sent = []
      ∧ (convertReportFormat examplePlatform 0 (sessionWith WiiExtensionController.Nunchuck)
        (buttonReport 0x32 sampleButtons [0x80, 0x80, 0, 0, 0, 0x02]) exampleOut).1.m_extension
        = WiiExtensionController.Nunchuck :=
  ⟨(C12_button_reports_send_nothing examplePlatform 0
      (sessionWith WiiExtensionController.Nunchuck)
      (buttonReport 0x32 sampleButtons [0x80, 0x80, 0, 0, 0, 0x02]) exampleOut
      (Or.inr (Or.inr (Or.inl rfl)))).1,
    (C12_button_reports_send_nothing examplePlatform 0
      (sessionWith WiiExtensionController.Nunchuck)
      (buttonReport 0x32 sampleButtons [0x80, 0x80, 0, 0, 0, 0x02]) exampleOut
      (Or.inr (Or.inr (Or.inl rfl)))).2.1⟩

/-- An acknowledgement or a report with an unknown id leaves the session as
it was. -/
theorem dispatch_ack_or_unknown (p : Platform) (s : WiiController) (r : WiiReportData)
    (d : SwitchReportData)
    (hid : r.id = 0x22 ∨ (r.id ≠ 0x20 ∧ r.id ≠ 0x21 ∧ r.id ≠ 0x22 ∧ r.id ≠ 0x30
      ∧ r.id ≠ 0x31 ∧ r.id ≠ 0x32 ∧ r.id ≠ 0x34)) :
    (dispatch p s r d).1 = s := by
  rcases hid with hid | ⟨h1, h2, h3, h4, h5, h6, h7⟩
  · simp [dispatch, hid, handleInputReport0x22]
  · simp [dispatch, h1, h2, h3, h4, h5, h6, h7]

/-- Any number of such reports leaves the session as it was. -/
theorem feed_ack_or_unknown (p : Platform) (rs : List (Nat × WiiReportData)) :
    ∀ (s : WiiController) (out : SwitchHidReport),
      (∀ x ∈ rs, x.2.id = 0x22 ∨ (x.2.id ≠ 0x20 ∧ x.2.id ≠ 0x21 ∧ x.2.id ≠ 0x22
        ∧ x.2.id ≠ 0x30 ∧ x.2.id ≠ 0x31 ∧ x.2.id ≠ 0x32 ∧ x.2.id ≠ 0x34)) →
      (feed p s out rs).1 = s := by
  induction rs with
  | nil => intro s out _; rfl
  | cons x rest ih =>
    intro s out hall
    rw [feed_cons, ih _ _ (fun y hy => hall y (List.mem_cons_of_mem x hy)), convert_fst,
      dispatch_ack_or_unknown p s x.2 out.data (hall x (List.mem_cons_self x rest))]

/-- C13: reports whose id is 0x22 or outside {0x20, 0x21, 0x22, 0x30, 0x31,
0x32, 0x34}, in any number, leave the variant, the battery and the charging
flag unchanged and emit no outgoing command. -/
theorem C13_ack_and_unknown_change_nothing (p : Platform) (s : WiiController)
    (out : SwitchHidReport) (rs : List (Nat × WiiReportData))
    (hall : ∀ x ∈ rs, x.2.id = 0x22 ∨ (x.2.id ≠ 0x20 ∧ x.2.id ≠ 0x21 ∧ x.2.id ≠ 0x22
      ∧ x.2.id ≠ 0x30 ∧ x.2.id ≠ 0x31 ∧ x.2.id ≠ 0x32 ∧ x.2.id ≠ 0x34)) :
    (feed p s out rs).1.m_extension = s.m_extension
      ∧ (feed p s out rs).1.m_battery = s.m_battery
      ∧ (feed p s out rs).1.m_charging = s.m_charging
      ∧ (feed p s out rs).1.sent = s.sent := by
  rw [feed_ack_or_unknown p rs s out hall]
  exact ⟨rfl, rfl, rfl, rfl⟩

theorem C13_ack_and_unknown_change_nothing_witness :
    (feed examplePlatform (sessionWith WiiExtensionController.Classic) exampleOut
        [(0, exampleReport 0x22), (1, exampleReport 0x99), (2, exampleReport 0x22)]).1.m_extension
        = WiiExtensionController.Classic
      ∧ (feed examplePlatform (sessionWith WiiExtensionController.Classic) exampleOut
        [(0, exampleReport 0x22), (1, exampleReport 0x99), (2, exampleReport 0x22)]).1.sent
        = [] :=
  ⟨(C13_ack_and_unknown_change_nothing examplePlatform
      (sessionWith WiiExtensionController.Classic) exampleOut
      [(0, exampleReport 0x22), (1, exampleReport 0x99), (2, exampleReport 0x22)]
      (by decide)).1,
    (C13_ack_and_unknown_change_nothing examplePlatform
      (sessionWith WiiExtensionController.Classic) exampleOut
      [(0, exampleReport 0x22), (1, exampleReport 0x99), (2, exampleReport 0x22)]
      (by decide)).2.2.2⟩

/-- C14: a 0x21 report whose address field, read big-endian, differs from
0x00FA changes nothing: variant, battery and charging flag stay and no outgoing
command is emitted, whatever the data bytes are. -/
theorem C14_other_read_address_ignored (p : Platform) (ms : Nat) (s : WiiController)
    (r : WiiReportData) (out : SwitchHidReport) (a0 a1 : Nat) (hid : r.id = 0x21)
    (ha0 : a0 < 256) (ha1 : a1 < 256) (haddr : r.input0x21.address = a0 + 256 * a1)
    (hbe : a0 * 256 + a1 ≠ 0x00FA) :
    (convertReportFormat p ms s r out).1.m_extension = s.m_extension
      ∧ (convertReportFormat p ms s r out).1.m_battery = s.m_battery
      ∧ (convertReportFormat p ms s r out).1.m_charging = s.m_charging
      ∧ (convertReportFormat p ms s r out).1.sent = s.sent := by
  have hne : swapBytes16 r.input0x21.address ≠ 0x00fa := by
    rw [haddr, swapBytes16_wire a0 a1 ha0 ha1]
    exact hbe
  have hs : (convertReportFormat p ms s r out).1 = s := by
    rw [convert_fst, dispatch_0x21 p s r out.data hid]
    simp only [handleInputReport0x21, if_neg hne]
  rw [hs]
  exact ⟨rfl, rfl, rfl, rfl⟩

theorem C14_other_read_address_ignored_witness :
    (convertReportFormat examplePlatform 0 exampleSession nunchuckIdAtOtherAddress
        exampleOut).1.m_extension = WiiExtensionController.None
      ∧ (convertReportFormat examplePlatform 0 exampleSession nunchuckIdAtOtherAddress
        exampleOut).1.sent = [] :=
  ⟨(C14_other_read_address_ignored examplePlatform 0 exampleSession nunchuckIdAtOtherAddress
      exampleOut 0x00 0xfb rfl (by decide) (by decide) (by decide) (by decide)).1,
    (C14_other_read_address_ignored examplePlatform 0 exampleSession nunchuckIdAtOtherAddress
      exampleOut 0x00 0xfb rfl (by decide) (by decide) (by decide) (by decide)).2.2.2⟩

/-- A status report with the flag set, received with a variant other than
None, changes only the battery. -/
theorem status_connected_identified (p : Platform) (ms : Nat) (s : WiiController)
    (r : WiiReportData) (out : SwitchHidReport) (hid : r.id = 0x20)
    (hconn : r.input0x20.extension_connected = true)
    (hext : s.m_extension ≠ WiiExtensionController.None) :
    (convertReportFormat p ms s r out).1
      = { s with m_battery := ((r.input0x20.battery / 52) <<< 1) % 256 } := by
  rw [convert_fst, dispatch_0x20 p s r out.data hid]
  simp [handleInputReport0x20, hconn, hext]

/-- A run of such reports leaves log and variant as they were. -/
theorem run_connected_identified (p : Platform) (rs : List (Nat × WiiReportData)) :
    ∀ (s : WiiController) (out : SwitchHidReport),
      s.m_extension ≠ WiiExtensionController.None →
      (∀ x ∈ rs, x.2.id = 0x20 ∧ x.2.input0x20.extension_connected = true) →
      (feed p s out rs).1.sent = s.sent
        ∧ (feed p s out rs).1.m_extension = s.m_extension := by
  induction rs with
  | nil => intro s out _ _; exact ⟨rfl, rfl⟩
  | cons x rest ih =>
    intro s out hext hall
    have hx := hall x (List.mem_cons_self x rest)
    have hstep := status_connected_identified p x.1 s x.2 out hx.1 hx.2 hext
    have hrest := ih (convertReportFormat p x.1 s x.2 out).1
      (convertReportFormat p x.1 s x.2 out).2 (by rw [hstep]; exact hext)
      (fun y hy => hall y (List.mem_cons_of_mem x hy))
    rw [feed_cons, hrest.1, hrest.2, hstep]
    exact ⟨rfl, rfl⟩

/-- C19: with a variant other than None, a status report with
`extension_connected = true` emits no outgoing command and leaves the variant
and the charging flag unchanged; only the battery is updated.  So a run of
such reports, of any length, sends nothing and keeps the variant: there is no
new identification until a status report with the flag clear arrives. -/
theorem C19_identified_extension_not_reidentified (p : Platform) (ms : Nat)
    (s : WiiController) (r : WiiReportData) (out : SwitchHidReport)
    (rs : List (Nat × WiiReportData)) (hid : r.id = 0x20)
    (hconn : r.input0x20.extension_connected = true)
    (hext : s.m_extension ≠ WiiExtensionController.None)
    (hrun : ∀ x ∈ rs, x.2.id = 0x20 ∧ x.2.input0x20.extension_connected = true) :
    ((convertReportFormat p ms s r out).1.sent = s.sent
        ∧ (convertReportFormat p ms s r out).1.m_extension = s.m_extension
        ∧ (convertReportFormat p ms s r out).1.m_charging = s.m_charging
        ∧ (convertReportFormat p ms s r out).1.m_battery
          = ((r.input0x20.battery / 52) <<< 1) % 256)
      ∧ (feed p s out rs).1.sent = s.sent
      ∧ (feed p s out rs).1.m_extension = s.m_extension := by
  refine ⟨?_, run_connected_identified p rs s out hext hrun⟩
  rw [status_connected_identified p ms s r out hid hconn hext]
  exact ⟨rfl, rfl, rfl, rfl⟩

theorem C19_identified_extension_not_reidentified_witness :
    ((convertReportFormat examplePlatform 0 (sessionWith WiiExtensionController.Unsupported)
        (statusReport true 208) exampleOut).1.sent = []
      ∧ (convertReportFormat examplePlatform 0 (sessionWith WiiExtensionController.Unsupported)
        (statusReport true 208) exampleOut).1.m_extension = WiiExtensionController.Unsupported
      ∧ (convertReportFormat examplePlatform 0 (sessionWith WiiExtensionController.Unsupported)
        (statusReport true 208) exampleOut).1.m_charging = false
      ∧ (convertReportFormat examplePlatform 0 (sessionWith WiiExtensionController.Unsupported)
        (statusReport true 208) exampleOut).1.m_battery = 8)
      ∧ (feed examplePlatform (sessionWith WiiExtensionController.Unsupported) exampleOut
        [(1, statusReport true 208), (2, statusReport true 100)]).1.sent = []
      ∧ (feed examplePlatform (sessionWith WiiExtensionController.Unsupported) exampleOut
        [(1, statusReport true 208), (2, statusReport true 100)]).1.m_extension
        = WiiExtensionController.Unsupported :=
  C19_identified_extension_not_reidentified examplePlatform 0
    (sessionWith WiiExtensionController.Unsupported) (statusReport true 208) exampleOut
    [(1, statusReport true 208), (2, statusReport true 100)] rfl rfl (by decide) (by decide)

/-! ## The output buffer -/

/-- The session a handler returns does not depend on the output buffer. -/
theorem dispatch_fst_buffer (p : Platform) (s : WiiController) (r : WiiReportData)
    (d1 d2 : SwitchReportData) :
    (dispatch p s r d1).1 = (dispatch p s r d2).1 := by
  unfold dispatch
  split_ifs
  · rfl
  · unfold handleInputReport0x21
    simp only
    split_ifs <;> rfl
  all_goals rfl

/-- C15 (as the code has it): two calls that differ only in the prior contents
of the output buffer agree on id, size, connection-info, battery and timer, and
on every button and stick field that the handler of the report writes; every
other button and stick field keeps the prior contents of the buffer.  Written
are: for 0x30/0x31 both sticks and dpad, A, B, R, L, minus, plus, home (kept:
Y, X, ZR, ZL and the two stick presses); for 0x32/0x34 with variant WiiUPro
every field; with Classic or ClassicPro both sticks and every button but the
two stick presses (kept); with Nunchuck the left stick and dpad, A, B, R, ZR,
L, ZL, minus, plus, home (kept: the right stick, X, Y and the two stick
presses).  For ids 0x20, 0x21, 0x22, unknown ids, and 0x32/0x34 with variant
None or Unsupported every button and stick field is kept. -/
theorem C15_written_fields_do_not_depend_on_buffer (p : Platform) (ms : Nat)
    (s : WiiController) (r : WiiReportData) (out1 out2 : SwitchHidReport) :
    let a := (convertReportFormat p ms s r out1).2
    let b := (convertReportFormat p ms s r out2).2
    let x := a.data.input0x30
    let y := b.data.input0x30
    let o := out1.data.input0x30
    (a.size = b.size ∧ a.data.id = b.data.id ∧ x.conn_info = y.conn_info
        ∧ x.battery = y.battery ∧ x.timer = y.timer)
      ∧ (r.id = 0x30 ∨ r.id = 0x31 →
          x.left_stick = y.left_stick ∧ x.right_stick = y.right_stick
            ∧ (x.buttons.dpad_down, x.buttons.dpad_up, x.buttons.dpad_right, x.buttons.dpad_left,
                x.buttons.A, x.buttons.B, x.buttons.R, x.buttons.L, x.buttons.minus,
                x.buttons.plus, x.buttons.home)
              = (y.buttons.dpad_down, y.buttons.dpad_up, y.buttons.dpad_right,
                y.buttons.dpad_left, y.buttons.A, y.buttons.B, y.buttons.R, y.buttons.L,
                y.buttons.minus, y.buttons.plus, y.buttons.home)
            ∧ (x.buttons.Y, x.buttons.X, x.buttons.ZR, x.buttons.ZL, x.buttons.rstick_press,
                x.buttons.lstick_press)
              = (o.buttons.Y, o.buttons.X, o.buttons.ZR, o.buttons.ZL, o.buttons.rstick_press,
                o.buttons.lstick_press))
      ∧ (r.id = 0x32 ∨ r.id = 0x34 →
          (s.m_extension = WiiExtensionController.WiiUPro → a.data = b.data)
            ∧ (s.m_extension = WiiExtensionController.Classic
                ∨ s.m_extension = WiiExtensionController.ClassicPro →
              x.left_stick = y.left_stick ∧ x.right_stick = y.right_stick
                ∧ (x.buttons.dpad_down, x.buttons.dpad_up, x.buttons.dpad_right,
                    x.buttons.dpad_left, x.buttons.A, x.buttons.B, x.buttons.X, x.buttons.Y,
                    x.buttons.L, x.buttons.ZL, x.buttons.R, x.buttons.ZR, x.buttons.minus,
                    x.buttons.plus, x.buttons.home)
                  = (y.buttons.dpad_down, y.buttons.dpad_up, y.buttons.dpad_right,
                    y.buttons.dpad_left, y.buttons.A, y.buttons.B, y.buttons.X, y.buttons.Y,
                    y.buttons.L, y.buttons.ZL, y.buttons.R, y.buttons.ZR, y.buttons.minus,
                    y.buttons.plus, y.buttons.home)
                ∧ (x.buttons.rstick_press, x.buttons.lstick_press)
                  = (o.buttons.rstick_press, o.buttons.lstick_press))
            ∧ (s.m_extension = WiiExtensionController.Nunchuck →
              x.left_stick = y.left_stick
                ∧ (x.buttons.dpad_down, x.buttons.dpad_up, x.buttons.dpad_right,
                    x.buttons.dpad_left, x.buttons.A, x.buttons.B, x.buttons.R, x.buttons.ZR,
                    x.buttons.L, x.buttons.ZL, x.buttons.minus, x.buttons.plus, x.buttons.home)
                  = (y.buttons.dpad_down, y.buttons.dpad_up, y.buttons.dpad_right,
                    y.buttons.dpad_left, y.buttons.A, y.buttons.B, y.buttons.R, y.buttons.ZR,
                    y.buttons.L, y.buttons.ZL, y.buttons.minus, y.buttons.plus,
                    y.buttons.home)
                ∧ x.right_stick = o.right_stick
                ∧ (x.buttons.X, x.buttons.Y, x.buttons.rstick_press, x.buttons.lstick_press)
                  = (o.buttons.X, o.buttons.Y, o.buttons.rstick_press,
                    o.buttons.lstick_press)))
      ∧ ((r.id ≠ 0x30 ∧ r.id ≠ 0x31 ∧ r.id ≠ 0x32 ∧ r.id ≠ 0x34)
            ∨ ((r.id = 0x32 ∨ r.id = 0x34)
              ∧ (s.m_extension = WiiExtensionController.None
                ∨ s.m_extension = WiiExtensionController.Unsupported)) →
          x.buttons = o.buttons
            ∧ x.left_stick = o.left_stick
            ∧ x.right_stick = o.right_stick) := by
  intro a b x y o
  have hbat : x.battery = y.battery := by
    show ((dispatch p s r out1.data).1.m_battery
        ||| (dispatch p s r out1.data).1.m_charging.toNat) % 256
      = ((dispatch p s r out2.data).1.m_battery
        ||| (dispatch p s r out2.data).1.m_charging.toNat) % 256
    rw [dispatch_fst_buffer p s r out1.data out2.data]
  refine ⟨⟨rfl, rfl, rfl, hbat, rfl⟩, ?_, ?_, ?_⟩
  · intro hid
    rcases hid with hid | hid <;>
      simp [x, y, o, a, b, convertReportFormat, dispatch, hid, handleInputReport0x30,
        handleInputReport0x31, mapButtonsHorizontalOrientation]
  · intro hid
    refine ⟨?_, ?_, ?_⟩
    · intro hext
      rcases hid with hid | hid <;>
        simp [a, b, convertReportFormat, dispatch, hid, handleInputReport0x32,
          handleInputReport0x34, mapExtensionBytes, hext, mapWiiUProControllerExtension]
    · intro hext
      rcases hid with hid | hid <;> rcases hext with hext | hext <;>
        simp [x, y, o, a, b, convertReportFormat, dispatch, hid, handleInputReport0x32,
          handleInputReport0x34, mapExtensionBytes, hext, mapClassicControllerExtension,
          mapButtonsVerticalOrientation]
    · intro hext
      rcases hid with hid | hid <;>
        simp [x, y, o, a, b, convertReportFormat, dispatch, hid, handleInputReport0x32,
          handleInputReport0x34, mapExtensionBytes, hext, mapNunchuckExtension,
          mapButtonsVerticalOrientation]
  · intro h
    rcases h with ⟨h1, h2, h3, h4⟩ | ⟨hid, hext⟩
    · have hd : (dispatch p s r out1.data).2 = out1.data := by
        unfold dispatch
        rw [if_neg h1, if_neg h2, if_neg h3, if_neg h4]
        split_ifs
        · rfl
        · unfold handleInputReport0x21
          simp only
          split_ifs <;> rfl
        · rfl
        · rfl
      have hx : x = { (dispatch p s r out1.data).2.input0x30 with
          conn_info := 0x0
          battery := ((dispatch p s r out1.data).1.m_battery
            ||| (dispatch p s r out1.data).1.m_charging.toNat) % 256
          timer := ms &&& 0xff } := rfl
      rw [hx, hd]
      exact ⟨rfl, rfl, rfl⟩
    · rcases hid with hid | hid <;> rcases hext with hext | hext <;>
        simp [x, o, a, convertReportFormat, dispatch, hid, handleInputReport0x32,
          handleInputReport0x34, mapExtensionBytes, hext]

/-- C15 as stated fails: an acknowledgement report decoded into two buffers
that differ in a button and the sticks yields reports that differ there. -/
theorem C15_stale_fields_survive :
    (convertReportFormat examplePlatform 0 exampleSession (exampleReport 0x22)
        exampleOut).2.data.input0x30.buttons.Y = false
      ∧ (convertReportFormat examplePlatform 0 exampleSession (exampleReport 0x22)
        staleOut).2.data.input0x30.buttons.Y = true
      ∧ (convertReportFormat examplePlatform 0 exampleSession (exampleReport 0x22)
        exampleOut).2.data.input0x30.left_stick = { x := 0, y := 0 }
      ∧ (convertReportFormat examplePlatform 0 exampleSession (exampleReport 0x22)
        staleOut).2.data.input0x30.left_stick = { x := 0x123, y := 0x456 } := by
  decide

theorem C15_written_fields_do_not_depend_on_buffer_witness :
    (convertReportFormat examplePlatform 0 exampleSession (buttonReport 0x30 sampleButtons [])
        exampleOut).2.data.input0x30.left_stick
        = (convertReportFormat examplePlatform 0 exampleSession
          (buttonReport 0x30 sampleButtons []) staleOut).2.data.input0x30.left_stick
      ∧ (convertReportFormat examplePlatform 0 exampleSession (buttonReport 0x30 sampleButtons [])
        staleOut).2.data.input0x30.buttons.Y = true :=
  ⟨((C15_written_fields_do_not_depend_on_buffer examplePlatform 0 exampleSession
      (buttonReport 0x30 sampleButtons []) exampleOut staleOut).2.1 (Or.inl rfl)).1,
    congrArg (fun t => t.1)
      ((C15_written_fields_do_not_depend_on_buffer examplePlatform 0 exampleSession
        (buttonReport 0x30 sampleButtons []) staleOut exampleOut).2.1 (Or.inl rfl)).2.2.2⟩

/-! ## Serialization of the memory commands -/

/-- A field of `m` bytes whose first bytes are `data` and whose other bytes are
given by `f`, read in order, is `data` followed by the rest. -/
theorem map_range_fill (data : List Nat) :
    ∀ (m : Nat) (f : Nat → Nat), data.length ≤ m →
      (List.range m).map (fun k => if k < data.length then data.getD k 0 else f k)
        = data ++ (List.range (m - data.length)).map (fun i => f (data.length + i)) := by
  induction data with
  | nil =>
    intro m f _
    simp
  | cons d ds ih =>
    intro m f hm
    obtain ⟨n, rfl⟩ : ∃ n, m = n + 1 := ⟨m - 1, by simp at hm; omega⟩
    have hn : ds.length ≤ n := by simp at hm; omega
    rw [List.range_succ_eq_map, List.map_cons, List.map_map]
    have := ih n (fun k => f (k + 1)) hn
    simp only [List.length_cons, Nat.zero_lt_succ, if_true, List.getD_cons_zero, List.cons_append,
      List.cons.injEq, true_and, Nat.add_sub_add_right]
    have hfun : ((fun k => if k < ds.length + 1 then (d :: ds).getD k 0 else f k) ∘ Nat.succ)
        = (fun k => if k < ds.length then ds.getD k 0 else f (k + 1)) := by
      funext k
      simp [Function.comp]
    rw [hfun, this]
    congr 1
    apply List.map_congr_left
    intro i _
    show f (ds.length + i + 1) = f (ds.length + 1 + i)
    congr 1
    omega

/-- The bytes of a swapped 32-bit value, least significant first, are the
bytes of the value, most significant first. -/
theorem swapBytes32_bytes (x : Nat) :
    swapBytes32 x % 256 = x / 2 ^ 24 % 256
      ∧ swapBytes32 x / 2 ^ 8 % 256 = x / 2 ^ 16 % 256
      ∧ swapBytes32 x / 2 ^ 16 % 256 = x / 2 ^ 8 % 256
      ∧ swapBytes32 x / 2 ^ 24 % 256 = x % 256 := by
  unfold swapBytes32
  have h0 : x % 256 < 256 := Nat.mod_lt _ (by norm_num)
  have h1 : x / 2 ^ 8 % 256 < 256 := Nat.mod_lt _ (by norm_num)
  have h2 : x / 2 ^ 16 % 256 < 256 := Nat.mod_lt _ (by norm_num)
  have h3 : x / 2 ^ 24 % 256 < 256 := Nat.mod_lt _ (by norm_num)
  generalize x % 256 = b0 at *
  generalize x / 2 ^ 8 % 256 = b1 at *
  generalize x / 2 ^ 16 % 256 = b2 at *
  generalize x / 2 ^ 24 % 256 = b3 at *
  norm_num
  omega

/-- The bytes of a swapped 16-bit value. -/
theorem swapBytes16_bytes (x : Nat) :
    swapBytes16 x % 256 = x / 2 ^ 8 % 256 ∧ swapBytes16 x / 2 ^ 8 % 256 = x % 256 := by
  unfold swapBytes16
  have h0 : x % 256 < 256 := Nat.mod_lt _ (by norm_num)
  have h1 : x / 256 % 256 < 256 := Nat.mod_lt _ (by norm_num)
  generalize x % 256 = b0 at *
  generalize x / 256 % 256 = b1 at *
  norm_num
  omega

/-- The bytes `readMemory` hands to the transport. -/
theorem readMemory_sent (p : Platform) (s : WiiController) (addr size : Nat) :
    (readMemory p s addr size).2.sent
      = s.sent ++ [[0x17, addr / 2 ^ 24 % 256, addr / 2 ^ 16 % 256, addr / 2 ^ 8 % 256,
          addr % 256, size / 2 ^ 8 % 256, size % 256]] := by
  have ha := swapBytes32_bytes addr
  have hs := swapBytes16_bytes size
  simp [readMemory, sendHidReport, sizeofWiiOutputReport0x17, offsetOutput0x17Address,
    offsetOutput0x17Size, storeLE32, storeLE16, store8, List.range_succ]
  norm_num at ha hs
  omega

/-- The bytes `writeMemory` hands to the transport: the header, the data, and
the rest of the 16-byte data field as the scratch buffer held it. -/
theorem writeMemory_sent (p : Platform) (s : WiiController) (addr : Nat) (data : List Nat)
    (hlen : data.length ≤ 16) (hdata : ∀ b ∈ data, b < 256) :
    (writeMemory p s addr data data.length).2.sent
      = s.sent ++ [[0x16, addr / 2 ^ 24 % 256, addr / 2 ^ 16 % 256, addr / 2 ^ 8 % 256,
          addr % 256, data.length] ++ data
          ++ (List.range (16 - data.length)).map
            (fun i => s.s_outputReport.data (6 + data.length + i))] := by
  have ha := swapBytes32_bytes addr
  have hn : data.length % 256 = data.length := Nat.mod_eq_of_lt (by omega)
  simp only [writeMemory, sendHidReport, sizeofWiiOutputReport0x16, offsetOutput0x16Address,
    offsetOutput0x16Size, offsetOutput0x16Data, hn]
  congr 2
  rw [show (21 + 1 : Nat) = 6 + 16 from rfl, List.range_add, List.map_append, List.map_map,
    List.append_assoc]
  congr 1
  · simp [List.range_succ, memcpy, store8, storeLE32, hn]
    norm_num at ha
    omega
  · have hfill := map_range_fill data 16 (fun k => s.s_outputReport.data (6 + k)) hlen
    simp only [← Nat.add_assoc] at hfill
    rw [← hfill]
    apply List.map_congr_left
    intro k hk
    have hk16 : k < 16 := List.mem_range.mp hk
    by_cases hkn : k < data.length
    · have hb : data[k] < 256 := hdata _ (List.getElem_mem ..)
      simp [memcpy, hkn]
      exact hb
    · simp [memcpy, hkn, store8, storeLE32]
      split_ifs <;> first | rfl | omega

/-- C16: the memory commands serialize their multi-byte fields big-endian.
`readMemory(addr, size)` hands the transport the 7 bytes 0x17, the four
address bytes most significant first, the two size bytes most significant
first.  `writeMemory(addr, data, size)` with `size` the length of `data`, at
most 16, hands it 0x16, the four address bytes most significant first, the
size byte and the data bytes in order; the report has the fixed length 22, so
the rest of the 16-byte data field follows as the scratch buffer held it. -/
theorem C16_memory_commands_big_endian (p : Platform) (s : WiiController) (addr size : Nat)
    (data : List Nat) (hlen : data.length ≤ 16) (hdata : ∀ b ∈ data, b < 256) :
    (readMemory p s addr size).2.sent
        = s.sent ++ [[0x17, addr / 2 ^ 24 % 256, addr / 2 ^ 16 % 256, addr / 2 ^ 8 % 256,
            addr % 256, size / 2 ^ 8 % 256, size % 256]]
      ∧ (writeMemory p s addr data data.length).2.sent
        = s.sent ++ [[0x16, addr / 2 ^ 24 % 256, addr / 2 ^ 16 % 256, addr / 2 ^ 8 % 256,
            addr % 256, data.length] ++ data
            ++ (List.range (16 - data.length)).map
              (fun i => s.s_outputReport.data (6 + data.length + i))] :=
  ⟨readMemory_sent p s addr size, writeMemory_sent p s addr data hlen hdata⟩

theorem C16_memory_commands_big_endian_witness :
    (readMemory examplePlatform exampleSession 0x04a400fa 6).2.sent
        = [[0x17, 0x04, 0xa4, 0x00, 0xfa, 0x00, 0x06]]
      ∧ (writeMemory examplePlatform exampleSession 0x04a400fa [0x55, 0xaa] 2).2.sent
        = [[0x16, 0x04, 0xa4, 0x00, 0xfa, 0x02, 0x55, 0xaa,
            0, 0, 0, 0, 0, 0, 0, 0, 0, 0, 0, 0, 0, 0]] :=
  C16_memory_commands_big_endian examplePlatform exampleSession 0x04a400fa 6 [0x55, 0xaa]
    (by decide) (by decide)

/-! ## Stick scaling -/

/-- The conversion of a float whose truncation is a `uint16_t`. -/
theorem castU16_of_range (p : Platform) (f : Int) (v : Nat) (hv : v < 65536)
    (h : F32.trunc f = (v : Int)) : castU16 p f = v := by
  unfold castU16
  rw [h, if_pos ⟨by omega, by omega⟩]
  simp

/-- The scaled value, when the fused and the unfused evaluation agree on it. -/
theorem scaleStick_eq (p : Platform) (scale d : Int) (v : Nat) (hv : v < 65536)
    (hsep : F32.trunc (F32.add (F32.mul scale (F32.ofInt d)) (F32.ofInt STICK_ZERO)) = (v : Int))
    (hfma : F32.trunc (F32.fma scale (F32.ofInt d) (F32.ofInt STICK_ZERO)) = (v : Int)) :
    scaleStick p scale d = v := by
  unfold scaleStick mulAdd
  cases p.contract
  · simpa using castU16_of_range p _ v hv hsep
  · simpa using castU16_of_range p _ v hv hfma

/-- The Nunchuck expression on every axis value from 0x24 up: the float sum,
truncated, is the floor of the exact value. -/
theorem nunchuck_table :
    ∀ ax : Nat, ax < 256 → 0x24 ≤ ax →
      F32.trunc (F32.add (F32.mul nunchuckStickScaleFactor (F32.ofInt ((ax : Int) - 0x80)))
          (F32.ofInt STICK_ZERO))
        = (((ax * 4095 + 0x800 * 184 - 0x80 * 4095) / 184 : Nat) : Int)
      ∧ F32.trunc (F32.fma nunchuckStickScaleFactor (F32.ofInt ((ax : Int) - 0x80))
          (F32.ofInt STICK_ZERO))
        = (((ax * 4095 + 0x800 * 184 - 0x80 * 4095) / 184 : Nat) : Int) := by
  decide!

/-- The Classic Controller left-stick expression on every raw value from 1
up. -/
theorem classic_left_table :
    ∀ raw : Nat, raw < 64 → 1 ≤ raw →
      F32.trunc (F32.add (F32.mul leftStickScaleFactor (F32.ofInt ((raw : Int) - 0x20)))
          (F32.ofInt STICK_ZERO))
        = ((65 * raw - 32 : Nat) : Int)
      ∧ F32.trunc (F32.fma leftStickScaleFactor (F32.ofInt ((raw : Int) - 0x20))
          (F32.ofInt STICK_ZERO))
        = ((65 * raw - 32 : Nat) : Int) := by
  decide!

theorem clampU16_min (v : Nat) : clampU16 v 0 0xfff = min 0xfff v := by
  unfold clampU16
  split_ifs <;> omega

theorem packStickData_small (a b : Nat) (ha : a ≤ 0xfff) (hb : b ≤ 0xfff) :
    packStickData (a : Int) (b : Int) = { x := a, y := b } := by
  unfold packStickData
  congr 1 <;> omega

theorem packStickData_x (a b : Nat) (ha : a ≤ 0xfff) : (packStickData (a : Int) (b : Int)).x = a := by
  unfold packStickData
  simp only
  omega

theorem packStickData_y (a b : Nat) (hb : b ≤ 0xfff) : (packStickData (a : Int) (b : Int)).y = b := by
  unfold packStickData
  simp only
  omega

/-- The Nunchuck axis value the mapping clamps, for axis values from 0x24 up,
on every platform. -/
theorem nunchuck_axis (p : Platform) (ax : Nat) (hlo : 0x24 ≤ ax) (hhi : ax ≤ 0xff) :
    clampU16 (scaleStick p nunchuckStickScaleFactor ((ax : Int) - 0x80)) 0 0xfff
      = min 0xfff ((ax * 4095 + 0x800 * 184 - 0x80 * 4095) / 184) := by
  have ht := nunchuck_table ax (by omega) hlo
  rw [scaleStick_eq p _ _ ((ax * 4095 + 0x800 * 184 - 0x80 * 4095) / 184) (by omega) ht.1 ht.2,
    clampU16_min]

/-- C17 (as the code has it): with variant Nunchuck, each left-stick
coordinate whose raw axis value lies from 0x24 to 0xFF (x and y each on its
own, whatever the other axis is) equals
`min(0xFFF, floor((axis − 0x80) × 4095/184 + 0x800))`: the float sum is
truncated, not rounded, and clamped above at 0xFFF. -/
theorem C17_nunchuck_axis_truncated (p : Platform) (ms : Nat) (s : WiiController)
    (r : WiiReportData) (out : SwitchHidReport) (ext : Nat → Nat)
    (hext : s.m_extension = WiiExtensionController.Nunchuck)
    (h : (r.id = 0x32 ∧ ext = r.input0x32.extension)
      ∨ (r.id = 0x34 ∧ ext = r.input0x34.extension)) :
    let o := (convertReportFormat p ms s r out).2.data.input0x30.left_stick
    (0x24 ≤ (p.asNunchuck ext).stick_x ∧ (p.asNunchuck ext).stick_x ≤ 0xff →
        o.x = min 0xfff
          (((p.asNunchuck ext).stick_x * 4095 + 0x800 * 184 - 0x80 * 4095) / 184))
      ∧ (0x24 ≤ (p.asNunchuck ext).stick_y ∧ (p.asNunchuck ext).stick_y ≤ 0xff →
        o.y = min 0xfff
          (((p.asNunchuck ext).stick_y * 4095 + 0x800 * 184 - 0x80 * 4095) / 184)) := by
  intro o
  have hl : ∀ d : SwitchReportData, (mapNunchuckExtension p ext d).input0x30.left_stick
      = packStickData
          (clampU16 (scaleStick p nunchuckStickScaleFactor
            (((p.asNunchuck ext).stick_x : Int) - 0x80)) 0 0xfff : Nat)
          (clampU16 (scaleStick p nunchuckStickScaleFactor
            (((p.asNunchuck ext).stick_y : Int) - 0x80)) 0 0xfff : Nat) := fun _ => rfl
  have ho : o = packStickData
      (clampU16 (scaleStick p nunchuckStickScaleFactor
        (((p.asNunchuck ext).stick_x : Int) - 0x80)) 0 0xfff : Nat)
      (clampU16 (scaleStick p nunchuckStickScaleFactor
        (((p.asNunchuck ext).stick_y : Int) - 0x80)) 0 0xfff : Nat) := by
    rcases h with ⟨hid, he⟩ | ⟨hid, he⟩
    · subst he
      have hd : o = (mapNunchuckExtension p r.input0x32.extension
          (mapButtonsVerticalOrientation r.input0x32.buttons out.data)).input0x30.left_stick := by
        simp [o, convertReportFormat, dispatch, hid, handleInputReport0x32, mapExtensionBytes,
          hext]
      rw [hd, hl]
    · subst he
      have hd : o = (mapNunchuckExtension p r.input0x34.extension
          (mapButtonsVerticalOrientation r.input0x34.buttons out.data)).input0x30.left_stick := by
        simp [o, convertReportFormat, dispatch, hid, handleInputReport0x34, mapExtensionBytes,
          hext]
      rw [hd, hl]
  refine ⟨fun hx => ?_, fun hy => ?_⟩
  · rw [ho, packStickData_x _ _ (clampU16_le _), nunchuck_axis p _ hx.1 hx.2]
  · rw [ho, packStickData_y _ _ (clampU16_le _), nunchuck_axis p _ hy.1 hy.2]

theorem C17_nunchuck_axis_truncated_witness :
    (convertReportFormat examplePlatform 0 (sessionWith WiiExtensionController.Nunchuck)
        (buttonReport 0x32 noButtons [0x83, 0x00, 0, 0, 0, 0x03]) exampleOut
      ).2.data.input0x30.left_stick.x = 2114
      ∧ (convertReportFormat examplePlatform 0 (sessionWith WiiExtensionController.Nunchuck)
        (buttonReport 0x32 noButtons [0x00, 0xff, 0, 0, 0, 0x03]) exampleOut
      ).2.data.input0x30.left_stick.y = 0xfff :=
  ⟨(C17_nunchuck_axis_truncated examplePlatform 0 (sessionWith WiiExtensionController.Nunchuck)
      (buttonReport 0x32 noButtons [0x83, 0x00, 0, 0, 0, 0x03]) exampleOut
      (fun i => [0x83, 0x00, 0, 0, 0, 0x03].getD i 0) rfl (Or.inl ⟨rfl, rfl⟩)).1
      ⟨by decide, by decide⟩,
    (C17_nunchuck_axis_truncated examplePlatform 0 (sessionWith WiiExtensionController.Nunchuck)
      (buttonReport 0x32 noButtons [0x00, 0xff, 0, 0, 0, 0x03]) exampleOut
      (fun i => [0x00, 0xff, 0, 0, 0, 0x03].getD i 0) rfl (Or.inl ⟨rfl, rfl⟩)).2
      ⟨by decide, by decide⟩⟩

/-- C17 as stated fails: at axis 0x83 the formula with rounding gives 2115,
the decoder gives 2114. -/
theorem C17_rounding_differs :
    (convertReportFormat examplePlatform 0 (sessionWith WiiExtensionController.Nunchuck)
        (buttonReport 0x32 noButtons [0x83, 0x80, 0, 0, 0, 0x03]) exampleOut
      ).2.data.input0x30.left_stick.x = 2114
      ∧ specNunchuckAxis 0x83 = 2115 := by
  decide!

theorem mask12_small (v : Nat) (h : v ≤ 0xfff) : v &&& 0xfff = v := by
  rw [show (0xfff : Nat) = 2 ^ 12 - 1 from rfl, Nat.and_pow_two_sub_one_eq_mod]
  exact Nat.mod_eq_of_lt (by omega)

/-- At raw value 0 the result follows the platform's conversion of the
negative float: 4031 where it wraps modulo 2^16, 0 where it yields 0. -/
theorem classic_right_stick_raw_zero_by_platform :
    (convertReportFormat wrappingPlatform 0 (sessionWith WiiExtensionController.Classic)
        (buttonReport 0x32 noButtons [0x20, 0x20, 0x00, 0, 0xff, 0xff]) exampleOut
      ).2.data.input0x30.right_stick = { x := 4031, y := 4031 }
      ∧ (convertReportFormat examplePlatform 0 (sessionWith WiiExtensionController.Classic)
        (buttonReport 0x32 noButtons [0x20, 0x20, 0x00, 0, 0xff, 0xff]) exampleOut
      ).2.data.input0x30.right_stick = { x := 0, y := 0 } := by
  decide!

/-- A Classic Controller left-stick axis for raw values from 1 up, on every
platform: `65 * raw - 32`. -/
theorem classic_left_axis (p : Platform) (b : Nat) (hlo : 1 ≤ b % 64) :
    scaleStick p leftStickScaleFactor (((b &&& 0x3f : Nat) : Int) - 0x20) &&& 0xfff
      = 65 * (b % 64) - 32 := by
  have hm : b &&& 0x3f = b % 64 := Nat.and_pow_two_sub_one_eq_mod b 6
  have hlt : b % 64 < 64 := Nat.mod_lt _ (by norm_num)
  have ht := classic_left_table (b % 64) hlt hlo
  rw [hm, scaleStick_eq p _ _ (65 * (b % 64) - 32) (by omega) ht.1 ht.2]
  exact mask12_small _ (by omega)

/-- The left-stick X of the normalized report for a Classic or ClassicPro
payload. -/
theorem convert_classic_left_x (p : Platform) (ms : Nat) (s : WiiController)
    (r : WiiReportData) (out : SwitchHidReport)
    (hext : s.m_extension = WiiExtensionController.Classic
      ∨ s.m_extension = WiiExtensionController.ClassicPro)
    (hid : r.id = 0x32) :
    (convertReportFormat p ms s r out).2.data.input0x30.left_stick.x
      = (packStickData
          (scaleStick p leftStickScaleFactor
            (((r.input0x32.extension 0 &&& 0x3f : Nat) : Int) - 0x20) &&& 0xfff : Nat)
          (scaleStick p leftStickScaleFactor
            (((r.input0x32.extension 1 &&& 0x3f : Nat) : Int) - 0x20) &&& 0xfff : Nat)).x := by
  rcases hext with hext | hext <;>
    simp [convertReportFormat, dispatch, hid, handleInputReport0x32, mapExtensionBytes, hext,
      mapClassicControllerExtension]

/-- Away from raw value 0 the Classic Controller left-stick X is monotone in
the raw value, on every platform. -/
theorem classic_left_stick_monotone_from_one (p : Platform) (ms : Nat) (s : WiiController)
    (ra rb : WiiReportData) (out : SwitchHidReport)
    (hext : s.m_extension = WiiExtensionController.Classic
      ∨ s.m_extension = WiiExtensionController.ClassicPro)
    (ha : ra.id = 0x32) (hb : rb.id = 0x32)
    (hlo : 1 ≤ ra.input0x32.extension 0 % 64)
    (hab : ra.input0x32.extension 0 % 64 ≤ rb.input0x32.extension 0 % 64) :
    (convertReportFormat p ms s ra out).2.data.input0x30.left_stick.x
      ≤ (convertReportFormat p ms s rb out).2.data.input0x30.left_stick.x := by
  rw [convert_classic_left_x p ms s ra out hext ha, convert_classic_left_x p ms s rb out hext hb,
    packStickData_x _ _ (Nat.and_le_right), packStickData_x _ _ (Nat.and_le_right),
    classic_left_axis p _ hlo, classic_left_axis p _ (by omega)]
  omega

/-- C20 at a failing input: with variant Classic, on a platform whose
out-of-range float conversion wraps, raw left-stick X 0 decodes to 0xFE0 and
raw 1 decodes to 33, so the larger raw value gives the smaller coordinate. -/
theorem C20_left_stick_jumps_back_at_zero :
    (convertReportFormat wrappingPlatform 0 (sessionWith WiiExtensionController.Classic)
        (buttonReport 0x32 noButtons [0x00, 0x20, 0x10, 0, 0xff, 0xff]) exampleOut
      ).2.data.input0x30.left_stick.x = 0xfe0
      ∧ (convertReportFormat wrappingPlatform 0 (sessionWith WiiExtensionController.Classic)
        (buttonReport 0x32 noButtons [0x01, 0x20, 0x10, 0, 0xff, 0xff]) exampleOut
      ).2.data.input0x30.left_stick.x = 33 := by
  decide!

end WiiController
